import Mathlib

/-!
Verification of the Tetris game core (`src/projects/tetris-game/game.js` plus
the tetromino/kick tables) against its natural-language specification.

The JavaScript source is shallowly embedded: the mutable `Game` object becomes
an explicit `GameState` record and every method becomes a pure state
transformer.  JavaScript numbers used as array indices are modelled as `Int`
(positions may go negative through wall kicks) or `Nat`; JS array reads
`a[i]` that may yield `undefined` are modelled with `Option` via `zget`.
Times are modelled in integer milliseconds.  Colors (CSS strings in the
source) are modelled as opaque nonzero `Nat` tokens; the collision and sweep
logic only ever compares cells against `0`, exactly as the source compares
against the number `0` (color strings are `!== 0`).
-/

namespace Tetris

/-- The seven tetromino kinds, `TETROMINOS` keys in the source. -/
inductive PieceKind
  | I | J | L | O | S | T | Z
deriving DecidableEq, Repr

/-- One entry of the `TETROMINOS` table: `id`, `shape`, `color`
(the CSS color string is modelled as an opaque nonzero token). -/
structure Tetromino where
  id : PieceKind
  shape : List (List Nat)
  color : Nat
deriving DecidableEq, Repr

/-- The `TETROMINOS` table from the tetromino-definition file. -/
def TETROMINOS : PieceKind → Tetromino
  | .I => ⟨.I, [[0,0,0,0],[1,1,1,1],[0,0,0,0],[0,0,0,0]], 1⟩
  | .J => ⟨.J, [[1,0,0],[1,1,1],[0,0,0]], 2⟩
  | .L => ⟨.L, [[0,0,1],[1,1,1],[0,0,0]], 3⟩
  | .O => ⟨.O, [[1,1],[1,1]], 4⟩
  | .S => ⟨.S, [[0,1,1],[1,1,0],[0,0,0]], 5⟩
  | .T => ⟨.T, [[0,1,0],[1,1,1],[0,0,0]], 6⟩
  | .Z => ⟨.Z, [[1,1,0],[0,1,1],[0,0,0]], 7⟩

/-- `COLS = 10`. -/
def COLS : Nat := 10

/-- `ROWS = 20`. -/
def ROWS : Nat := 20

/-- `lockDelay = 500` (ms). -/
def lockDelay : Nat := 500

/-- `maxLockMoves = 15`. -/
def maxLockMoves : Nat := 15

/-- A board position `{x, y}`; kicks can push `y` (and in principle `x`)
negative, so both coordinates are integers. -/
structure Pos where
  x : Int
  y : Int
deriving DecidableEq, Repr

/-- The `player` object: active piece state. -/
structure Player where
  pos : Pos
  matrix : List (List Nat)
  tetromino : Tetromino
  rotationIndex : Nat
deriving DecidableEq, Repr

/-- `GAME_STATE` values. -/
inductive GState
  | MENU | PLAYING | PAUSED | GAMEOVER
deriving DecidableEq, Repr

/-- The mutable fields of the `Game` object that the core logic touches.
Canvas/DOM/audio fields are presentation-only and omitted.  Randomness
(`Math.random`) is modelled by the stream `rng` together with a cursor `rix`:
each shuffle consumes fresh stream values.  `highScore` and the unused
`nextPieces` array are omitted (never read by the core logic). -/
structure GameState where
  grid : List (List Nat)
  score : Nat
  lines : Nat
  level : Nat
  state : GState
  dropCounter : Nat
  dropInterval : Nat
  lockTimer : Nat
  isLocking : Bool
  lockMoves : Nat
  player : Player
  bag : List Tetromino
  nextPiece : Option Tetromino
  holdPiece : Option Tetromino
  canHold : Bool
  clearingLines : List Nat
  clearAnimationFrame : Nat
  isAnimatingClear : Bool
  rng : Nat → Nat
  rix : Nat

/-- JS array read `l[i]` for a possibly-negative index: `undefined` (`none`)
for a negative or too-large index. -/
def zget {α : Type} (l : List α) (i : Int) : Option α :=
  if 0 ≤ i then l[i.toNat]? else none

/-- The value of `arena[r][c]` as the source reads it:
`none` models `undefined` (missing row, or missing cell of a present row). -/
def cellAt (arena : List (List Nat)) (r c : Int) : Option Nat :=
  (zget arena r).bind fun row => zget row c

/-- `collide(arena, player)`.  The source destructures the player into its
`matrix` and `pos`, and is also called with ad-hoc `{pos, matrix}` objects
(ghost piece), so the embedding takes them as separate arguments.
A cell collides when it is occupied and `arena[y+o.y]` is `undefined`, or
`arena[y+o.y][x+o.x]` is `undefined`, or that cell is `!== 0` — i.e. exactly
when the addressed cell is anything other than a present `0`. -/
def collide (arena : List (List Nat)) (m : List (List Nat)) (o : Pos) : Bool :=
  (List.range m.length).any fun y =>
    (List.range (m.getD y []).length).any fun x =>
      ((m.getD y []).getD x 0 != 0) &&
        !(cellAt arena ((y : Int) + o.y) ((x : Int) + o.x) == some 0)

/-- JS element store `arena[r][c] = v`.  A store to a present row at a
column outside `[0, rowLength)` creates a non-index property that no later
read or iteration of the source ever observes, so it is modelled as a no-op;
a store to an absent row (`r` negative or beyond the grid) would throw in JS
and is likewise modelled as a no-op (such stores are what `merge` would do on
an out-of-bounds piece; either way the grid is unchanged). -/
def zsetCell (arena : List (List Nat)) (r c : Int) (v : Nat) : List (List Nat) :=
  if 0 ≤ r ∧ 0 ≤ c then
    match arena[r.toNat]? with
    | some row => arena.set r.toNat (row.set c.toNat v)
    | none => arena
  else arena

/-- `merge(arena, player)`: stamp every occupied cell of the piece into the
grid with the piece's color token, in row-major order as the source's nested
`forEach` does. -/
def merge (arena : List (List Nat)) (p : Player) : List (List Nat) :=
  (List.range p.matrix.length).foldl (fun a y =>
    (List.range (p.matrix.getD y []).length).foldl (fun a' x =>
      if (p.matrix.getD y []).getD x 0 ≠ 0 then
        zsetCell a' ((y : Int) + p.pos.y) ((x : Int) + p.pos.x) p.tetromino.color
      else a') a) arena

/-- Transpose of a square matrix: the source's in-place swap loop
(`for y; for x < y; swap m[x][y] m[y][x]`) realizes exactly this on the
square shape matrices it is applied to. -/
def transposeSq (m : List (List Nat)) : List (List Nat) :=
  (List.range m.length).map fun i =>
    (List.range m.length).map fun j => (m.getD j []).getD i 0

/-- `rotate(matrix, dir)`: transpose, then reverse each row (clockwise,
`dir > 0`) or reverse the row order (counter-clockwise). -/
def rotate (m : List (List Nat)) (dir : Int) : List (List Nat) :=
  if dir > 0 then (transposeSq m).map List.reverse else (transposeSq m).reverse

/-- `KICKS_JLTSZ`, keyed by (fromRotation, toRotation). -/
def kicksJLTSZ (a b : Nat) : List (Int × Int) :=
  match a, b with
  | 0, 1 => [(0,0), (-1,0), (-1,-1), (0,2), (-1,2)]
  | 1, 0 => [(0,0), (1,0), (1,1), (0,-2), (1,-2)]
  | 1, 2 => [(0,0), (1,0), (1,1), (0,-2), (1,-2)]
  | 2, 1 => [(0,0), (-1,0), (-1,-1), (0,2), (-1,2)]
  | 2, 3 => [(0,0), (1,0), (1,1), (0,-2), (1,-2)]
  | 3, 2 => [(0,0), (-1,0), (-1,-1), (0,2), (-1,2)]
  | 3, 0 => [(0,0), (-1,0), (-1,-1), (0,2), (-1,2)]
  | 0, 3 => [(0,0), (1,0), (1,1), (0,-2), (1,-2)]
  | _, _ => [(0,0)]

/-- `KICKS_I`, keyed by (fromRotation, toRotation). -/
def kicksI (a b : Nat) : List (Int × Int) :=
  match a, b with
  | 0, 1 => [(0,0), (-2,0), (1,0), (-2,1), (1,-2)]
  | 1, 0 => [(0,0), (2,0), (-1,0), (2,-1), (-1,2)]
  | 1, 2 => [(0,0), (-1,0), (2,0), (-1,2), (2,-1)]
  | 2, 1 => [(0,0), (1,0), (-2,0), (1,-2), (-2,1)]
  | 2, 3 => [(0,0), (2,0), (-1,0), (2,1), (-1,-2)]
  | 3, 2 => [(0,0), (-2,0), (1,0), (-2,-1), (1,2)]
  | 3, 0 => [(0,0), (1,0), (-2,0), (1,-2), (-2,1)]
  | 0, 3 => [(0,0), (-1,0), (2,0), (-1,2), (2,-1)]
  | _, _ => [(0,0)]

/-- `getKickData(type, rotationIndex, direction)`: the `'a-b'` string keys of
the source become the (from, to) pair; a key absent from the table yields the
`[[0,0]]` fallback, as does the O piece. -/
def getKickData (t : PieceKind) (rotIdx : Nat) (dir : Int) : List (Int × Int) :=
  let next := (((rotIdx : Int) + dir + 4) % 4).toNat
  match t with
  | .O => [(0,0)]
  | .I => kicksI rotIdx next
  | _ => kicksJLTSZ rotIdx next

/-- `createGrid()`: ROWS rows of COLS zeroes. -/
def createGrid : List (List Nat) :=
  List.replicate ROWS (List.replicate COLS 0)

/-- The literal `['I', 'L', 'J', 'O', 'T', 'S', 'Z']` that `fillBag` shuffles. -/
def basePieces : List PieceKind :=
  [.I, .L, .J, .O, .T, .S, .Z]

/-- One Fisher-Yates swap `[pieces[i], pieces[j]] = [pieces[j], pieces[i]]`. -/
def fySwap (l : List PieceKind) (i j : Nat) : List PieceKind :=
  (l.set i (l.getD j .I)).set j (l.getD i .I)

/-- The Fisher-Yates loop of `fillBag`: `for i = 6 down to 1`, swap index `i`
with `j = Math.floor(Math.random() * (i + 1))`.  The random draw for loop
index `i` is modelled as `r i % (i + 1)`, which ranges over exactly the
`[0, i]` values the source draws; `r` is an arbitrary stream, so every
possible sequence of draws (hence every shuffle outcome) is covered. -/
def shuffleKinds (r : Nat → Nat) : List PieceKind :=
  [6, 5, 4, 3, 2, 1].foldl (fun l i => fySwap l i (r i % (i + 1))) basePieces

/-- Advance a random stream past `k` consumed values. -/
def streamFrom (r : Nat → Nat) (base : Nat) : Nat → Nat :=
  fun k => r (base + k)

/-- `fillBag()`: replace the bag by a freshly shuffled list of the 7
tetrominos (each kind mapped through `TETROMINOS`), consuming 6 random
draws from the stream. -/
def fillBag (s : GameState) : GameState :=
  { s with bag := (shuffleKinds (streamFrom s.rng s.rix)).map TETROMINOS,
           rix := s.rix + 6 }

/-- `getNextFromBag()`: refill when (and only when) the bag is empty, then
`pop()` — remove and return the last element.  The `none` branch is dead
code (a freshly filled bag has 7 pieces); in JS `pop()` on an empty array
would return `undefined` and the caller would crash. -/
def getNextFromBag (s : GameState) : Tetromino × GameState :=
  let s' := if s.bag.isEmpty then fillBag s else s
  match s'.bag.getLast? with
  | some t => (t, { s' with bag := s'.bag.dropLast })
  | none => (TETROMINOS .I, s')

/-- The NES-style frames-per-row table of `getDropInterval`.  For levels not
in the table the source falls back to `level > 19 ? 2 : 4`; since levels
0–19 are all present, only the `2` branch is reachable. -/
def framesFor (level : Nat) : Nat :=
  match level with
  | 0 => 48 | 1 => 48 | 2 => 43 | 3 => 38 | 4 => 33 | 5 => 28
  | 6 => 23 | 7 => 18 | 8 => 13 | 9 => 8 | 10 => 6 | 11 => 5
  | 12 => 5 | 13 => 5 | 14 => 4 | 15 => 4 | 16 => 4 | 17 => 3
  | 18 => 3 | 19 => 3
  | _ => 2

/-- `getDropInterval(level) = (frames / 60) * 1000`, in integer ms
(the fractional part of the JS float is immaterial to every claim). -/
def getDropInterval (level : Nat) : Nat :=
  framesFor level * 1000 / 60

/-- `gameOver()`: the core effect is `state = GAMEOVER` (DOM updates and
high-score persistence are presentation-only). -/
def gameOver (s : GameState) : GameState :=
  { s with state := .GAMEOVER }

/-- `playerReset()`: take `nextPiece` (or draw when it is `null`), deep-copy
its shape into `player.matrix`, center horizontally
(`x = floor(COLS/2) - floor(width/2)`, `y = 0`, `rotationIndex = 0`), draw a
fresh `nextPiece`, reset the lock-delay state, and go to game over if the
spawned piece already collides. -/
def playerReset (s : GameState) : GameState :=
  let ts := match s.nextPiece with
    | some t => (t, s)
    | none => getNextFromBag s
  let t := ts.1
  let matrix := t.shape
  let px : Int := ((COLS : Int) / 2) - (((matrix.headD []).length / 2 : Nat) : Int)
  let ns := getNextFromBag ts.2
  let s₁ := { ns.2 with
    player := { pos := ⟨px, 0⟩, matrix := matrix, tetromino := t, rotationIndex := 0 },
    nextPiece := some ns.1,
    isLocking := false, lockTimer := 0, lockMoves := 0 }
  if collide s₁.grid s₁.player.matrix s₁.player.pos then gameOver s₁ else s₁

/-- `arenaSweep()`: record the indices of all full rows, scanning from the
bottom row upward (so `clearingLines` is descending), and when any exist
start the clear animation.  The actual row removal is deferred to
`completeClear`. -/
def arenaSweep (s : GameState) : GameState :=
  let cls := ((List.range s.grid.length).reverse).filter
    (fun y => (s.grid.getD y []).all (fun c => c != 0))
  if cls.isEmpty then { s with clearingLines := cls }
  else { s with clearingLines := cls, isAnimatingClear := true, clearAnimationFrame := 0 }

/-- Insert into a descending-sorted list, keeping it descending. -/
def insertDesc (x : Nat) : List Nat → List Nat
  | [] => [x]
  | y :: ys => if y ≤ x then x :: y :: ys else y :: insertDesc x ys

/-- Descending sort, the result of JS `sort((a, b) => b - a)` (here realized
by structural insertion sort; the algorithm JS uses is unspecified but its
result on the duplicate-free row-index lists is exactly the descending
order). -/
def sortDesc : List Nat → List Nat
  | [] => []
  | x :: xs => insertDesc x (sortDesc xs)

/-- `completeClear()`: sort the recorded rows descending
(`sort((a, b) => b - a)`), then for each one `splice` it out and `unshift` a
fresh empty row; add the line/score/level bookkeeping.  The score table is
`{1:100, 2:300, 3:500, 4:800}` with `|| 100` fallback, times the level. -/
def completeClear (s : GameState) : GameState :=
  let rowCount := s.clearingLines.length
  let sorted := sortDesc s.clearingLines
  let grid := sorted.foldl (fun g y => List.replicate COLS 0 :: g.eraseIdx y) s.grid
  let lines := s.lines + rowCount
  let lineScore := match rowCount with
    | 1 => 100 | 2 => 300 | 3 => 500 | 4 => 800 | _ => 100
  let score := s.score + lineScore * s.level
  let newLevel := lines / 10 + 1
  let s₁ := { s with grid := grid, lines := lines, score := score,
                     clearingLines := [], isAnimatingClear := false }
  if newLevel > s.level then
    { s₁ with level := newLevel, dropInterval := getDropInterval newLevel }
  else s₁

/-- `playerDrop()`: gravity drop; advance one row, revert and arm the lock
delay on collision, otherwise disarm it; always clear the drop counter. -/
def playerDrop (s : GameState) : GameState :=
  let p := s.player
  let pos' : Pos := ⟨p.pos.x, p.pos.y + 1⟩
  if collide s.grid p.matrix pos' then
    let s₁ := { s with dropCounter := 0 }
    if !s₁.isLocking then { s₁ with isLocking := true, lockTimer := 0 } else s₁
  else
    { s with player := { p with pos := pos' },
             isLocking := false, lockTimer := 0, dropCounter := 0 }

/-- `manualDrop()`: soft drop; like `playerDrop` but a successful step
scores `+1`. -/
def manualDrop (s : GameState) : GameState :=
  let p := s.player
  let pos' : Pos := ⟨p.pos.x, p.pos.y + 1⟩
  if collide s.grid p.matrix pos' then
    let s₁ := { s with dropCounter := 0 }
    if !s₁.isLocking then { s₁ with isLocking := true, lockTimer := 0 } else s₁
  else
    { s with player := { p with pos := pos' }, score := s.score + 1,
             isLocking := false, lockTimer := 0, dropCounter := 0 }

/-- The hard-drop `while (!collide) y++` loop: number of increments
performed before the first colliding row.  The JS loop carries no fuel; the
fuel below is an upper bound on the iteration count whenever some lower row
collides at all (`dropDist_spec`), which holds for every piece with at least
one occupied cell; on an all-empty matrix the JS loop would never
terminate. -/
def dropDist (grid m : List (List Nat)) (x y : Int) : Nat → Nat
  | 0 => 0
  | fuel + 1 =>
    if collide grid m ⟨x, y⟩ then 0 else dropDist grid m x (y + 1) fuel + 1

/-- `lockPiece()`: merge the piece, sweep for full rows, re-enable hold and
spawn the next piece. -/
def lockPiece (s : GameState) : GameState :=
  let s₁ := { s with grid := merge s.grid s.player }
  let s₂ := arenaSweep s₁
  playerReset { s₂ with canHold := true }

/-- `playerHardDrop()`: advance while no collision counting `dropped`, step
back one row, add `Math.max(0, dropped - 1) * 2` to the score (`Nat`
subtraction realizes the `max`), and lock immediately. -/
def playerHardDrop (s : GameState) : GameState :=
  let p := s.player
  let fuel := s.grid.length + p.matrix.length + 1 + (-p.pos.y).toNat
  let d := dropDist s.grid p.matrix p.pos.x p.pos.y fuel
  let s₁ := { s with player := { p with pos := ⟨p.pos.x, p.pos.y + (d : Int) - 1⟩ },
                     score := s.score + (d - 1) * 2 }
  lockPiece s₁

/-- `playerMove(dir)`: tentative horizontal shift, reverted on collision; on
success, while locking and under the move cap, zero the lock timer and count
the move. -/
def playerMove (dir : Int) (s : GameState) : GameState :=
  let p := s.player
  let pos' : Pos := ⟨p.pos.x + dir, p.pos.y⟩
  if collide s.grid p.matrix pos' then s
  else
    let s₁ := { s with player := { p with pos := pos' } }
    if s₁.isLocking ∧ s₁.lockMoves < maxLockMoves then
      { s₁ with lockTimer := 0, lockMoves := s₁.lockMoves + 1 }
    else s₁

/-- `(currentRotation + dir + 4) % 4`, the rotation-state update. -/
def nextRotIdx (dir : Int) (r : Nat) : Nat :=
  (((r : Int) + dir + 4) % 4).toNat

/-- `playerRotate(dir)`: rotate the matrix, then try each SRS kick offset in
order (`x += offsetX`, `y -= offsetY`); the first non-colliding candidate is
committed together with the new rotation index and the lock-delay reset
policy; if every candidate collides the matrix is rotated back. -/
def playerRotate (dir : Int) (s : GameState) : GameState :=
  let p := s.player
  let m' := rotate p.matrix dir
  let kicks := getKickData p.tetromino.id p.rotationIndex dir
  match kicks.find? (fun off =>
      !collide s.grid m' ⟨p.pos.x + off.1, p.pos.y - off.2⟩) with
  | some off =>
    let s₁ := { s with player := { p with
      matrix := m',
      pos := ⟨p.pos.x + off.1, p.pos.y - off.2⟩,
      rotationIndex := nextRotIdx dir p.rotationIndex } }
    if s₁.isLocking ∧ s₁.lockMoves < maxLockMoves then
      { s₁ with lockTimer := 0, lockMoves := s₁.lockMoves + 1 }
    else s₁
  | none => { s with player := { p with matrix := rotate m' (-dir) } }

/-- `holdTetromino()`: no-op unless hold is available and the game is
playing; first hold stores the piece and respawns from the lookahead, later
holds swap with the slot and respawn the swapped-in kind at default
position/rotation; hold is then consumed until the next lock. -/
def holdTetromino (s : GameState) : GameState :=
  if s.canHold = false ∨ s.state ≠ .PLAYING then s
  else
    match s.holdPiece with
    | none =>
      { playerReset { s with holdPiece := some s.player.tetromino } with canHold := false }
    | some h =>
      let matrix := h.shape
      let px : Int := ((COLS : Int) / 2) - (((matrix.headD []).length / 2 : Nat) : Int)
      { s with holdPiece := some s.player.tetromino,
               player := { pos := ⟨px, 0⟩, matrix := matrix, tetromino := h,
                           rotationIndex := 0 },
               canHold := false }

/-- `togglePause()`. -/
def togglePause (s : GameState) : GameState :=
  if s.state = .PLAYING then { s with state := .PAUSED }
  else if s.state = .PAUSED then { s with state := .PLAYING }
  else s

/-- One pass of `update(time)` with `deltaTime = delta`, the per-frame tick:
during PLAYING, either advance the clear animation (completing the deferred
clear at frame 18), or accumulate gravity (dropping when the counter exceeds
the interval) and then the lock timer (locking at the 500 ms threshold).
Rendering and `requestAnimationFrame` bookkeeping are omitted. -/
def updateTick (delta : Nat) (s : GameState) : GameState :=
  if s.state ≠ .PLAYING then s
  else if s.isAnimatingClear then
    let s₁ := { s with clearAnimationFrame := s.clearAnimationFrame + 1 }
    if s₁.clearAnimationFrame ≥ 18 then completeClear s₁ else s₁
  else
    let s₁ := { s with dropCounter := s.dropCounter + delta }
    let s₂ := if s₁.dropCounter > s₁.dropInterval then playerDrop s₁ else s₁
    if s₂.isLocking then
      let s₃ := { s₂ with lockTimer := s₂.lockTimer + delta }
      if s₃.lockTimer ≥ lockDelay then lockPiece s₃ else s₃
    else s₂

/-- `reset()`. -/
def resetGame (s : GameState) : GameState :=
  { s with grid := createGrid, score := 0, lines := 0, level := 1,
           holdPiece := none, bag := [], isAnimatingClear := false,
           clearingLines := [] }

/-- The `Game` constructor's initial field values (canvas/audio/listener
setup omitted; the `null` piece fields are inert placeholders that `start`
overwrites before play). -/
def initialState (r : Nat → Nat) : GameState :=
  { grid := createGrid, score := 0, lines := 0, level := 1, state := .MENU,
    dropCounter := 0, dropInterval := 1000, lockTimer := 0, isLocking := false,
    lockMoves := 0,
    player := { pos := ⟨0, 0⟩, matrix := [], tetromino := TETROMINOS .I,
                rotationIndex := 0 },
    bag := [], nextPiece := none, holdPiece := none, canHold := true,
    clearingLines := [], clearAnimationFrame := 0, isAnimatingClear := false,
    rng := r, rix := 0 }

/-- `start(startLevel)`: reinitialize the session, fill the bag, draw the
lookahead, spawn the first piece and enter PLAYING (the countdown overlay
only re-asserts PLAYING later). -/
def startGame (startLevel : Nat) (s : GameState) : GameState :=
  let s₁ := { s with grid := createGrid, score := 0, lines := 0,
                     level := startLevel,
                     dropInterval := getDropInterval startLevel,
                     bag := [], holdPiece := none, canHold := true,
                     isAnimatingClear := false, clearingLines := [] }
  let s₂ := fillBag s₁
  let ts := getNextFromBag s₂
  let s₃ := playerReset { ts.2 with nextPiece := some ts.1 }
  { s₃ with state := .PLAYING }

/-- The operations through which the repository drives the core: direct user
inputs (`controls.js` handlers) and the frame tick.  This is the step
relation of the session state machine. -/
inductive Step : GameState → GameState → Prop
  | move (dir : Int) (s : GameState) : Step s (playerMove dir s)
  | rot (dir : Int) (s : GameState) : Step s (playerRotate dir s)
  | gravity (s : GameState) : Step s (playerDrop s)
  | soft (s : GameState) : Step s (manualDrop s)
  | hard (s : GameState) : Step s (playerHardDrop s)
  | holdStep (s : GameState) : Step s (holdTetromino s)
  | tick (delta : Nat) (s : GameState) : Step s (updateTick delta s)
  | pauseStep (s : GameState) : Step s (togglePause s)
  | resetStep (s : GameState) : Step s (resetGame s)

/-- Draw `n` pieces in sequence through `getNextFromBag`. -/
def drawN : Nat → GameState → List Tetromino × GameState
  | 0, s => ([], s)
  | n + 1, s =>
    let ts := getNextFromBag s
    let rest := drawN n ts.2
    (ts.1 :: rest.1, rest.2)

/-- Both grid dimensions: exactly ROWS rows of exactly COLS cells. -/
def gridDims (g : List (List Nat)) : Prop :=
  g.length = ROWS ∧ ∀ row ∈ g, row.length = COLS

/-- A square matrix (every tetromino shape, and every rotation of one). -/
def isSquare (m : List (List Nat)) : Prop :=
  ∀ row ∈ m, row.length = m.length

/-- The (y, x) indices of the occupied cells of a shape matrix. -/
def occupiedCells (m : List (List Nat)) : List (Nat × Nat) :=
  (List.range m.length).flatMap fun y =>
    ((List.range (m.getD y []).length).filter
      (fun x => (m.getD y []).getD x 0 != 0)).map fun x => (y, x)

/-- A grid cell is presently occupied (exists and is nonzero). -/
def occupiedAt (arena : List (List Nat)) (r c : Int) : Prop :=
  (cellAt arena r c).getD 0 ≠ 0

instance (arena : List (List Nat)) (r c : Int) : Decidable (occupiedAt arena r c) := by
  unfold occupiedAt
  infer_instance

instance (g : List (List Nat)) : Decidable (gridDims g) := by
  unfold gridDims
  infer_instance

instance (m : List (List Nat)) : Decidable (isSquare m) := by
  unfold isSquare
  infer_instance

/-- The collision predicate exactly as the specification words it: an
occupied cell outside `[0, COLS)` horizontally or at row `≥ ROWS`, or over
an occupied grid cell; rows above the top are *not* a collision
(`spec: cells above row 0 ... never collide against bounds`). -/
def collideSpec (arena m : List (List Nat)) (o : Pos) : Prop :=
  ∃ c ∈ occupiedCells m,
    ((c.2 : Int) + o.x < 0 ∨ (c.2 : Int) + o.x ≥ (COLS : Int) ∨
      (c.1 : Int) + o.y ≥ (ROWS : Int) ∨
      occupiedAt arena ((c.1 : Int) + o.y) ((c.2 : Int) + o.x))

/-- The collision predicate the code actually implements: as `collideSpec`,
but an occupied cell at a negative row (above the hidden buffer's top edge)
is also a collision. -/
def collideSpecAmended (arena m : List (List Nat)) (o : Pos) : Prop :=
  ∃ c ∈ occupiedCells m,
    ((c.2 : Int) + o.x < 0 ∨ (c.2 : Int) + o.x ≥ (COLS : Int) ∨
      (c.1 : Int) + o.y < 0 ∨ (c.1 : Int) + o.y ≥ (ROWS : Int) ∨
      occupiedAt arena ((c.1 : Int) + o.y) ((c.2 : Int) + o.x))

instance (arena m : List (List Nat)) (o : Pos) : Decidable (collideSpec arena m o) := by
  unfold collideSpec
  infer_instance

instance (arena m : List (List Nat)) (o : Pos) :
    Decidable (collideSpecAmended arena m o) := by
  unfold collideSpecAmended
  infer_instance

/-- A call `playerRotate dir` will find a non-colliding kick candidate. -/
def rotSuccess (dir : Int) (s : GameState) : Bool :=
  ((getKickData s.player.tetromino.id s.player.rotationIndex dir).find? fun off =>
    !collide s.grid (rotate s.player.matrix dir)
      ⟨s.player.pos.x + off.1, s.player.pos.y - off.2⟩).isSome

/-- States reachable from a given state through core operations. -/
def Reachable : GameState → GameState → Prop :=
  Relation.ReflTransGen Step

/-- The dimension invariant carried through every reachable state: the grid
is ROWS × COLS and every recorded clearing line is a valid row index. -/
def InvDims (s : GameState) : Prop :=
  gridDims s.grid ∧ ∀ y ∈ s.clearingLines, y < ROWS

/-- A fixed, arbitrary random stream for the concrete scenarios. -/
def rng0 : Nat → Nat := fun _ => 0

/-- A player record holding a freshly spawned piece of the given kind at the
given position. -/
def spawnedAt (k : PieceKind) (x y : Int) : Player :=
  { pos := ⟨x, y⟩, matrix := (TETROMINOS k).shape, tetromino := TETROMINOS k,
    rotationIndex := 0 }

/-- C1 failing input: a board whose bottom two rows (18 and 19) are full,
with a distinctive non-full row 17 above them. -/
def gC1 : List (List Nat) :=
  (List.replicate 17 (List.replicate 10 0)) ++
  [[1,0,0,0,0,0,0,0,0,0], List.replicate 10 2, List.replicate 10 3]

/-- C1 session state right after the sweep recorded rows 19 and 18. -/
def sC1 : GameState :=
  { initialState rng0 with grid := gC1, state := .PLAYING,
                           clearingLines := [19, 18], isAnimatingClear := true }

/-- C3 scenario: an O piece spawned at `(4, 0)` over an empty board. -/
def sC3 : GameState :=
  { initialState rng0 with state := .PLAYING, player := spawnedAt .O 4 0 }

/-- C4/C5 scenario: a T piece free to move on an empty board, with the lock
delay armed mid-countdown. -/
def sC4 : GameState :=
  { initialState rng0 with state := .PLAYING, isLocking := true,
                           lockTimer := 137, lockMoves := 0,
                           player := spawnedAt .T 4 5 }

/-- C6 witness board: full except exactly the four cells of a T piece in
spawn rotation at `(4, 5)` — every rotation kick candidate collides. -/
def gC6 : List (List Nat) :=
  (List.replicate 5 (List.replicate 10 9)) ++
  [[9,9,9,9,9,0,9,9,9,9],
   [9,9,9,9,0,0,0,9,9,9]] ++ (List.replicate 13 (List.replicate 10 9))

/-- C6 witness state. -/
def sC6 : GameState :=
  { initialState rng0 with grid := gC6, state := .PLAYING,
                           player := spawnedAt .T 4 5 }

/-- C7 counterexample board: a pocket in which a T piece at `(4, 5)` can
rotate clockwise exactly once (via the `(-1, 0)` kick) and is then stuck. -/
def gC7 : List (List Nat) :=
  (List.replicate 5 (List.replicate 10 9)) ++
  [[9,9,9,9,0,0,9,9,9,9],
   [9,9,9,9,0,0,0,9,9,9],
   [9,9,9,9,0,9,9,9,9,9]] ++ (List.replicate 12 (List.replicate 10 9))

/-- C7 counterexample state. -/
def sC7 : GameState :=
  { initialState rng0 with grid := gC7, state := .PLAYING,
                           player := spawnedAt .T 4 5 }

/-- C7 witness state: a T piece in open space rotates freely. -/
def sC7w : GameState :=
  { initialState rng0 with state := .PLAYING, player := spawnedAt .T 4 5 }

/-- C9 counterexample: a board topped out by a single blocker at `(0, 5)`,
with the spawn-collided T piece and the session in GAMEOVER. -/
def gC9 : List (List Nat) :=
  createGrid.set 0 ((List.replicate 10 0).set 5 7)

/-- C9 counterexample state. -/
def sC9 : GameState :=
  { initialState rng0 with grid := gC9, state := .GAMEOVER,
                           player := spawnedAt .T 4 0 }

/-! ### Permutation lemmas for the 7-bag randomizer -/

theorem set_append_perm {α : Type} (l : List α) (i : Nat) (b : α) (h : i < l.length) :
    ((l.set i b) ++ [l[i]]).Perm (l ++ [b]) := by
  induction l generalizing i with
  | nil => simp at h
  | cons a t ih =>
    cases i with
    | zero =>
      have h1 : (b :: (t ++ [a])).Perm (b :: (a :: t)) :=
        (List.perm_append_singleton a t).cons b
      have h2 : (b :: (a :: t)).Perm (a :: (b :: t)) := List.Perm.swap a b t
      have h3 : (a :: (b :: t)).Perm (a :: (t ++ [b])) :=
        ((List.perm_append_singleton b t).symm).cons a
      simpa using (h1.trans h2).trans h3
    | succ n =>
      have hn : n < t.length := by simpa using h
      simpa using (ih n hn).cons a

theorem fySwap_perm (l : List PieceKind) (i j : Nat) (hi : i < l.length)
    (hj : j < l.length) : (fySwap l i j).Perm l := by
  have hgj : l.getD j .I = l[j] := List.getD_eq_getElem l .I hj
  have hgi : l.getD i .I = l[i] := List.getD_eq_getElem l .I hi
  have hj' : j < (l.set i l[j]).length := by simpa using hj
  have h1 : ((l.set i l[j]) ++ [l[i]]).Perm (l ++ [l[j]]) := set_append_perm l i l[j] hi
  have h2 : (((l.set i l[j]).set j l[i]) ++ [(l.set i l[j])[j]]).Perm
      ((l.set i l[j]) ++ [l[i]]) := set_append_perm (l.set i l[j]) j l[i] hj'
  have hgetj : (l.set i l[j])[j] = l[j] := by
    rw [List.getElem_set]
    split <;> rfl
  rw [hgetj] at h2
  have h4 := (List.perm_append_right_iff [l[j]]).mp (h2.trans h1)
  show ((l.set i (l.getD j .I)).set j (l.getD i .I)).Perm l
  rw [hgj, hgi]
  exact h4

theorem shuffleKinds_perm (r : Nat → Nat) : (shuffleKinds r).Perm basePieces := by
  have step : ∀ (l : List PieceKind) (i : Nat), l.length = 7 → i < 7 →
      (fySwap l i (r i % (i + 1))).Perm l := by
    intro l i hl hi
    refine fySwap_perm l i (r i % (i + 1)) (by omega) ?_
    have := Nat.mod_lt (r i) (y := i + 1) (by omega)
    omega
  have hbase : basePieces.length = 7 := rfl
  have h6 := step basePieces 6 hbase (by omega)
  have h5 := step _ 5 (h6.length_eq.trans hbase) (by omega)
  have h4 := step _ 4 ((h5.trans h6).length_eq.trans hbase) (by omega)
  have h3 := step _ 3 ((h4.trans (h5.trans h6)).length_eq.trans hbase) (by omega)
  have h2 := step _ 2 ((h3.trans (h4.trans (h5.trans h6))).length_eq.trans hbase) (by omega)
  have h1 := step _ 1
    ((h2.trans (h3.trans (h4.trans (h5.trans h6)))).length_eq.trans hbase) (by omega)
  exact h1.trans (h2.trans (h3.trans (h4.trans (h5.trans h6))))

theorem getNextFromBag_nonempty (s : GameState) (h : s.bag ≠ []) :
    getNextFromBag s = (s.bag.getLast h, { s with bag := s.bag.dropLast }) := by
  unfold getNextFromBag
  have he : s.bag.isEmpty = false := List.isEmpty_eq_false.mpr h
  simp only [he, Bool.false_eq_true, if_false, List.getLast?_eq_getLast s.bag h]

theorem drawN_exhausts (b : List Tetromino) :
    ∀ s : GameState, s.bag = b → b ≠ [] →
      (drawN b.length s).1 = b.reverse ∧ (drawN b.length s).2.bag = [] := by
  induction b using List.reverseRecOn with
  | nil => intro s _ hne; exact absurd rfl hne
  | append_singleton ys t ih =>
    intro s hb _
    have hne : s.bag ≠ [] := by simp [hb]
    have hfirst := getNextFromBag_nonempty s hne
    have hlast : s.bag.getLast hne = t := by
      refine (List.getLast_congr _ (by simp) hb).trans ?_
      simp
    have hdrop : s.bag.dropLast = ys := by simp [hb]
    have hlen : (ys ++ [t]).length = ys.length + 1 := by simp
    rw [hlen]
    have hstep : drawN (ys.length + 1) s
        = ((getNextFromBag s).1 :: (drawN ys.length (getNextFromBag s).2).1,
           (drawN ys.length (getNextFromBag s).2).2) := rfl
    rw [hstep, hfirst]
    by_cases hys : ys = []
    · subst hys
      simp only [List.length_nil, drawN]
      simp [hlast, hdrop]
    · have hrec := ih { s with bag := s.bag.dropLast } (by simpa using hdrop) hys
      constructor
      · simp [hlast, hrec.1]
      · exact hrec.2

theorem getNextFromBag_empty_fill (s : GameState) (h : s.bag = []) :
    getNextFromBag s = getNextFromBag (fillBag s) := by
  unfold getNextFromBag
  have h1 : s.bag.isEmpty = true := by simp [h]
  have h2 : (fillBag s).bag.isEmpty = false := by
    refine List.isEmpty_eq_false.mpr ?_
    have : (fillBag s).bag.length = 7 := by
      simp [fillBag, (shuffleKinds_perm (streamFrom s.rng s.rix)).length_eq]
      rfl
    intro hc
    rw [hc] at this
    simp at this
  simp [h1, h2]

theorem TETROMINOS_id (k : PieceKind) : (TETROMINOS k).id = k := by
  cases k <;> rfl

/-- C8: at a bag boundary (empty bag), the next 7 draws are exactly one
piece of each of the 7 kinds, for every outcome of the shuffle; every refill
is a permutation of exactly the 7 kinds; and a draw from a nonempty bag
never refills — it only pops the bag (its random cursor is untouched). -/
theorem bag_boundary_seven_draws (s : GameState) (hempty : s.bag = []) :
    ((drawN 7 s).1.map Tetromino.id).Perm basePieces ∧
    (∀ r : Nat → Nat, (shuffleKinds r).Perm basePieces) ∧
    (∀ s' : GameState, s'.bag ≠ [] →
      (getNextFromBag s').2.bag = s'.bag.dropLast ∧ (getNextFromBag s').2.rix = s'.rix) := by
  refine ⟨?_, shuffleKinds_perm, ?_⟩
  · have hfill : drawN 7 s = drawN 7 (fillBag s) := by
      have h1 := getNextFromBag_empty_fill s hempty
      show ((getNextFromBag s).1 :: (drawN 6 (getNextFromBag s).2).1,
            (drawN 6 (getNextFromBag s).2).2) = _
      rw [h1]
      rfl
    set B := (shuffleKinds (streamFrom s.rng s.rix)).map TETROMINOS with hB
    have hbag : (fillBag s).bag = B := rfl
    have hperm := shuffleKinds_perm (streamFrom s.rng s.rix)
    have hlen : B.length = 7 := by
      rw [hB, List.length_map, hperm.length_eq]
      rfl
    have hne : B ≠ [] := by
      intro hc
      rw [hc] at hlen
      simp at hlen
    have hex := drawN_exhausts B (fillBag s) hbag hne
    rw [hlen] at hex
    rw [hfill, hex.1]
    have hmap : B.reverse.map Tetromino.id = (B.map Tetromino.id).reverse :=
      List.map_reverse Tetromino.id B
    rw [hmap]
    refine (List.reverse_perm _).trans ?_
    have : B.map Tetromino.id = shuffleKinds (streamFrom s.rng s.rix) := by
      rw [hB, List.map_map]
      have : (Tetromino.id ∘ TETROMINOS) = id := by
        funext k
        exact TETROMINOS_id k
      rw [this, List.map_id]
    rw [this]
    exact hperm
  · intro s' hne
    rw [getNextFromBag_nonempty s' hne]
    exact ⟨rfl, rfl⟩

/-- C8 witness: the theorem applied to the initial state (empty bag). -/
theorem bag_boundary_seven_draws_witness :
    (((drawN 7 (initialState rng0)).1.map Tetromino.id).Perm basePieces ∧
      (∀ r : Nat → Nat, (shuffleKinds r).Perm basePieces) ∧
      (∀ s' : GameState, s'.bag ≠ [] →
        (getNextFromBag s').2.bag = s'.bag.dropLast ∧
        (getNextFromBag s').2.rix = s'.rix)) :=
  bag_boundary_seven_draws (initialState rng0) rfl

/-! ### Rotation lemmas -/

theorem length_transposeSq (m : List (List Nat)) :
    (transposeSq m).length = m.length := by
  simp [transposeSq]

theorem length_rotate (m : List (List Nat)) (dir : Int) :
    (rotate m dir).length = m.length := by
  unfold rotate
  split <;> simp [transposeSq]

theorem getD_transposeSq (m : List (List Nat)) (i j : Nat)
    (hi : i < m.length) (hj : j < m.length) :
    ((transposeSq m).getD i []).getD j 0 = (m.getD j []).getD i 0 := by
  unfold transposeSq
  simp [List.getD_eq_getElem?_getD, List.getElem?_map, List.getElem?_range, hi, hj]

theorem row_length_transposeSq (m : List (List Nat)) (i : Nat) (hi : i < m.length) :
    ((transposeSq m).getD i []).length = m.length := by
  unfold transposeSq
  simp [List.getD_eq_getElem?_getD, List.getElem?_map, List.getElem?_range, hi]

theorem rotate_eq_pos (m : List (List Nat)) (dir : Int) (h : dir > 0) :
    rotate m dir = (transposeSq m).map List.reverse := by
  unfold rotate
  rw [if_pos h]

theorem rotate_eq_neg (m : List (List Nat)) (dir : Int) (h : ¬ dir > 0) :
    rotate m dir = (transposeSq m).reverse := by
  unfold rotate
  rw [if_neg h]

theorem getD_cw (m : List (List Nat)) (i j : Nat)
    (hi : i < m.length) (hj : j < m.length) :
    (((transposeSq m).map List.reverse).getD i []).getD j 0
      = (m.getD (m.length - 1 - j) []).getD i 0 := by
  unfold transposeSq
  simp only [List.getD_eq_getElem?_getD, List.getElem?_map, List.map_map]
  rw [List.getElem?_range hi]
  simp only [Option.map_some', Option.getD_some, Function.comp_apply]
  rw [List.getElem?_reverse (by simpa using hj)]
  simp only [List.length_map, List.length_range]
  rw [List.getElem?_map, List.getElem?_range (by omega)]
  simp

theorem getD_ccw (m : List (List Nat)) (i j : Nat)
    (hi : i < m.length) (hj : j < m.length) :
    (((transposeSq m).reverse).getD i []).getD j 0
      = (m.getD j []).getD (m.length - 1 - i) 0 := by
  unfold transposeSq
  simp only [List.getD_eq_getElem?_getD]
  rw [List.getElem?_reverse (by simpa using hi)]
  simp only [List.length_map, List.length_range]
  rw [List.getElem?_map, List.getElem?_range (by omega)]
  simp only [Option.map_some', Option.getD_some]
  rw [List.getElem?_map, List.getElem?_range hj]
  simp

theorem row_length_cw (m : List (List Nat)) (i : Nat) (hi : i < m.length) :
    (((transposeSq m).map List.reverse).getD i []).length = m.length := by
  unfold transposeSq
  simp only [List.getD_eq_getElem?_getD, List.getElem?_map, List.map_map]
  rw [List.getElem?_range hi]
  simp

theorem row_length_ccw (m : List (List Nat)) (i : Nat) (hi : i < m.length) :
    (((transposeSq m).reverse).getD i []).length = m.length := by
  unfold transposeSq
  simp only [List.getD_eq_getElem?_getD]
  rw [List.getElem?_reverse (by simpa using hi)]
  simp only [List.length_map, List.length_range]
  rw [List.getElem?_map, List.getElem?_range (by omega)]
  simp

theorem getD_rotate_pos (m : List (List Nat)) (dir : Int) (h : dir > 0)
    (i j : Nat) (hi : i < m.length) (hj : j < m.length) :
    ((rotate m dir).getD i []).getD j 0
      = (m.getD (m.length - 1 - j) []).getD i 0 := by
  rw [rotate_eq_pos m dir h]
  exact getD_cw m i j hi hj

theorem getD_rotate_neg (m : List (List Nat)) (dir : Int) (h : ¬ dir > 0)
    (i j : Nat) (hi : i < m.length) (hj : j < m.length) :
    ((rotate m dir).getD i []).getD j 0
      = (m.getD j []).getD (m.length - 1 - i) 0 := by
  rw [rotate_eq_neg m dir h]
  exact getD_ccw m i j hi hj

theorem row_length_rotate (m : List (List Nat)) (dir : Int) (i : Nat)
    (hi : i < m.length) :
    ((rotate m dir).getD i []).length = m.length := by
  by_cases h : dir > 0
  · rw [rotate_eq_pos m dir h]
    exact row_length_cw m i hi
  · rw [rotate_eq_neg m dir h]
    exact row_length_ccw m i hi

theorem rotate_isSquare (m : List (List Nat)) (dir : Int) :
    isSquare (rotate m dir) := by
  intro row hrow
  obtain ⟨i, hilen, hrowi⟩ := List.mem_iff_getElem.mp hrow
  have hi : i < m.length := by rwa [length_rotate] at hilen
  have := row_length_rotate m dir i hi
  rw [List.getD_eq_getElem _ _ hilen] at this
  rw [← hrowi, length_rotate]
  exact this

theorem matrix_ext (A B : List (List Nat)) (hlen : A.length = B.length)
    (hrows : ∀ i, i < A.length → (A.getD i []).length = (B.getD i []).length)
    (hcells : ∀ i j, i < A.length → j < (A.getD i []).length →
      (A.getD i []).getD j 0 = (B.getD i []).getD j 0) : A = B := by
  refine List.ext_getElem hlen ?_
  intro i h1 h2
  have hAi : A[i] = A.getD i [] := (List.getD_eq_getElem A [] h1).symm
  have hBi : B[i] = B.getD i [] := (List.getD_eq_getElem B [] h2).symm
  rw [hAi, hBi]
  have hrl := hrows i h1
  refine List.ext_getElem hrl ?_
  intro j hj1 hj2
  have h3 : (A.getD i [])[j] = (A.getD i []).getD j 0 :=
    (List.getD_eq_getElem _ 0 hj1).symm
  have h4 : (B.getD i [])[j] = (B.getD i []).getD j 0 :=
    (List.getD_eq_getElem _ 0 hj2).symm
  rw [h3, h4]
  exact hcells i j h1 hj1

theorem square_row_length (m : List (List Nat)) (hsq : isSquare m) (i : Nat)
    (hi : i < m.length) : (m.getD i []).length = m.length := by
  have hmem : m.getD i [] ∈ m := by
    rw [List.getD_eq_getElem m [] hi]
    exact List.getElem_mem hi
  exact hsq _ hmem

theorem rotate_back (m : List (List Nat)) (dir : Int)
    (hdir : dir = 1 ∨ dir = -1) (hsq : isSquare m) :
    rotate (rotate m dir) (-dir) = m := by
  rcases hdir with h | h <;> subst h
  · refine matrix_ext _ _ (by rw [length_rotate, length_rotate]) ?_ ?_
    · intro i hi
      rw [length_rotate, length_rotate] at hi
      rw [row_length_rotate _ _ i (by rwa [length_rotate]), length_rotate]
      exact (square_row_length m hsq i hi).symm
    · intro i j hi hj
      rw [length_rotate, length_rotate] at hi
      rw [row_length_rotate _ _ i (by rwa [length_rotate]), length_rotate] at hj
      rw [getD_rotate_neg _ _ (by norm_num) i j
        (by rwa [length_rotate]) (by rwa [length_rotate])]
      rw [length_rotate]
      rw [getD_rotate_pos m 1 (by norm_num) j (m.length - 1 - i) hj (by omega)]
      have hfix : m.length - 1 - (m.length - 1 - i) = i := by omega
      rw [hfix]
  · have hone : (-(-1) : Int) = 1 := by norm_num
    rw [hone]
    refine matrix_ext _ _ (by rw [length_rotate, length_rotate]) ?_ ?_
    · intro i hi
      rw [length_rotate, length_rotate] at hi
      rw [row_length_rotate _ _ i (by rwa [length_rotate]), length_rotate]
      exact (square_row_length m hsq i hi).symm
    · intro i j hi hj
      rw [length_rotate, length_rotate] at hi
      rw [row_length_rotate _ _ i (by rwa [length_rotate]), length_rotate] at hj
      rw [getD_rotate_pos _ _ (by norm_num) i j
        (by rwa [length_rotate]) (by rwa [length_rotate])]
      rw [length_rotate]
      rw [getD_rotate_neg m (-1) (by norm_num) (m.length - 1 - j) i (by omega) hi]
      congr 1
      omega

theorem getD_rotate2 (m : List (List Nat)) (dir : Int)
    (hdir : dir = 1 ∨ dir = -1) (i j : Nat)
    (hi : i < m.length) (hj : j < m.length) :
    ((rotate (rotate m dir) dir).getD i []).getD j 0
      = (m.getD (m.length - 1 - i) []).getD (m.length - 1 - j) 0 := by
  rcases hdir with h | h <;> subst h
  · rw [getD_rotate_pos _ _ (by norm_num) i j
      (by rwa [length_rotate]) (by rwa [length_rotate])]
    rw [length_rotate]
    rw [getD_rotate_pos m 1 (by norm_num) (m.length - 1 - j) i (by omega) hi]
  · rw [getD_rotate_neg _ _ (by norm_num) i j
      (by rwa [length_rotate]) (by rwa [length_rotate])]
    rw [length_rotate]
    rw [getD_rotate_neg m (-1) (by norm_num) j (m.length - 1 - i) hj (by omega)]

theorem rotate_four (m : List (List Nat)) (dir : Int)
    (hdir : dir = 1 ∨ dir = -1) (hsq : isSquare m) :
    rotate (rotate (rotate (rotate m dir) dir) dir) dir = m := by
  have hlen2 : (rotate (rotate m dir) dir).length = m.length := by
    rw [length_rotate, length_rotate]
  have hlen4 : (rotate (rotate (rotate (rotate m dir) dir) dir) dir).length
      = m.length := by
    rw [length_rotate, length_rotate, hlen2]
  refine matrix_ext _ _ hlen4 ?_ ?_
  · intro i hi
    rw [hlen4] at hi
    rw [row_length_rotate _ _ i (by rwa [length_rotate, hlen2]), length_rotate, hlen2]
    exact (square_row_length m hsq i hi).symm
  · intro i j hi hj
    rw [hlen4] at hi
    rw [row_length_rotate _ _ i (by rwa [length_rotate, hlen2]), length_rotate,
      hlen2] at hj
    have h1 := getD_rotate2 (rotate (rotate m dir) dir) dir hdir i j
      (by rwa [hlen2]) (by rwa [hlen2])
    rw [h1, hlen2]
    have h2 := getD_rotate2 m dir hdir (m.length - 1 - i) (m.length - 1 - j)
      (by omega) (by omega)
    rw [h2]
    congr 2
    · omega
    · omega

/-! ### Structure of `playerRotate` -/

theorem head_cons_of_head? {α : Type} (l : List α) (a : α) (h : l.head? = some a) :
    ∃ tl, l = a :: tl := by
  cases l with
  | nil => simp at h
  | cons x t =>
    simp at h
    exact ⟨t, by rw [h]⟩

theorem kicksI_head (a b : Nat) : (kicksI a b).head? = some (0, 0) := by
  unfold kicksI
  split <;> rfl

theorem kicksJLTSZ_head (a b : Nat) : (kicksJLTSZ a b).head? = some (0, 0) := by
  unfold kicksJLTSZ
  split <;> rfl

theorem getKickData_head (t : PieceKind) (r : Nat) (d : Int) :
    ∃ tl, getKickData t r d = (0, 0) :: tl := by
  simp only [getKickData]
  cases t <;>
    first
      | exact ⟨[], rfl⟩
      | exact head_cons_of_head? _ _ (kicksI_head _ _)
      | exact head_cons_of_head? _ _ (kicksJLTSZ_head _ _)

theorem playerRotate_success (dir : Int) (s : GameState) (off : Int × Int)
    (hfind : (getKickData s.player.tetromino.id s.player.rotationIndex dir).find?
      (fun o => !collide s.grid (rotate s.player.matrix dir)
        ⟨s.player.pos.x + o.1, s.player.pos.y - o.2⟩) = some off) :
    (playerRotate dir s).player.matrix = rotate s.player.matrix dir ∧
    (playerRotate dir s).player.pos =
      ⟨s.player.pos.x + off.1, s.player.pos.y - off.2⟩ ∧
    (playerRotate dir s).player.rotationIndex =
      nextRotIdx dir s.player.rotationIndex ∧
    (playerRotate dir s).player.tetromino = s.player.tetromino ∧
    (playerRotate dir s).grid = s.grid := by
  simp only [playerRotate]
  rw [hfind]
  split
  next off' heq =>
    injection heq with heq'
    subst heq'
    split <;> exact ⟨rfl, rfl, rfl, rfl, rfl⟩
  next heq => exact Option.noConfusion heq

theorem playerRotate_noKick (dir : Int) (s : GameState)
    (hz : collide s.grid (rotate s.player.matrix dir) s.player.pos = false) :
    (playerRotate dir s).player.pos = s.player.pos ∧
    (playerRotate dir s).player.matrix = rotate s.player.matrix dir ∧
    (playerRotate dir s).player.rotationIndex =
      nextRotIdx dir s.player.rotationIndex ∧
    (playerRotate dir s).player.tetromino = s.player.tetromino ∧
    (playerRotate dir s).grid = s.grid := by
  obtain ⟨tl, htl⟩ := getKickData_head s.player.tetromino.id s.player.rotationIndex dir
  have hpos0 : (⟨s.player.pos.x + (0 : Int), s.player.pos.y - (0 : Int)⟩ : Pos)
      = s.player.pos := by
    cases s.player.pos
    simp
  have hfind : (getKickData s.player.tetromino.id s.player.rotationIndex dir).find?
      (fun o => !collide s.grid (rotate s.player.matrix dir)
        ⟨s.player.pos.x + o.1, s.player.pos.y - o.2⟩) = some (0, 0) := by
    rw [htl]
    refine List.find?_cons_of_pos _ ?_
    show (!collide s.grid (rotate s.player.matrix dir)
      ⟨s.player.pos.x + (0 : Int), s.player.pos.y - (0 : Int)⟩) = true
    rw [hpos0, hz]
    rfl
  have P := playerRotate_success dir s (0, 0) hfind
  refine ⟨?_, P.1, P.2.2.1, P.2.2.2.1, P.2.2.2.2⟩
  rw [P.2.1]
  exact hpos0

theorem rotIdx_four (r : Nat) (dir : Int) (hr : r < 4) (hdir : dir = 1 ∨ dir = -1) :
    nextRotIdx dir (nextRotIdx dir (nextRotIdx dir (nextRotIdx dir r))) = r := by
  rcases hdir with h | h <;> subst h <;> interval_cases r <;> decide

/-- C6: when every SRS kick candidate for the requested rotation collides,
`playerRotate` leaves the whole state — matrix, position, rotationIndex and
everything else — exactly as it was: a silent no-op, not an error. -/
theorem playerRotate_all_blocked_noop (s : GameState) (dir : Int)
    (hdir : dir = 1 ∨ dir = -1) (hsq : isSquare s.player.matrix)
    (hall : ∀ off ∈ getKickData s.player.tetromino.id s.player.rotationIndex dir,
      collide s.grid (rotate s.player.matrix dir)
        ⟨s.player.pos.x + off.1, s.player.pos.y - off.2⟩ = true) :
    playerRotate dir s = s := by
  have hfind : (getKickData s.player.tetromino.id s.player.rotationIndex dir).find?
      (fun o => !collide s.grid (rotate s.player.matrix dir)
        ⟨s.player.pos.x + o.1, s.player.pos.y - o.2⟩) = none := by
    rw [List.find?_eq_none]
    intro off hoff
    rw [hall off hoff]
    simp
  simp only [playerRotate]
  rw [hfind, rotate_back s.player.matrix dir hdir hsq]

/-- C6 witness: a T piece in a pocket with every kick blocked; the rotation
call returns the state unchanged. -/
theorem playerRotate_all_blocked_noop_witness : playerRotate 1 sC6 = sC6 :=
  playerRotate_all_blocked_noop sC6 1 (Or.inl rfl)
    (by unfold isSquare; decide) (by decide)

/-- C7 counterexample: in the pocket board `gC7` a T piece rotates clockwise
once (with a wall kick) and then every further rotation is blocked, so four
clockwise rotations leave it with `rotationIndex = 1` and a rotated matrix —
the original matrix and rotation state are *not* restored. -/
theorem rotate_four_counterexample :
    (playerRotate 1 (playerRotate 1 (playerRotate 1 (playerRotate 1 sC7)))).player.rotationIndex
        = 1 ∧
    sC7.player.rotationIndex = 0 ∧
    (playerRotate 1 (playerRotate 1 (playerRotate 1 (playerRotate 1 sC7)))).player.matrix
      ≠ sC7.player.matrix := by
  exact ⟨by decide, by decide, by decide⟩

/-- C7 (amended): if each of the four successive rotations in the same
direction finds a kick (succeeds), the piece's matrix and rotationState are
restored; if moreover every one of them succeeds already at the `(0,0)`
candidate (no kick needed), the position is restored as well. -/
theorem rotate_four_amended (s : GameState) (dir : Int)
    (hdir : dir = 1 ∨ dir = -1) (hsq : isSquare s.player.matrix)
    (hr : s.player.rotationIndex < 4)
    (h1 : rotSuccess dir s = true)
    (h2 : rotSuccess dir (playerRotate dir s) = true)
    (h3 : rotSuccess dir (playerRotate dir (playerRotate dir s)) = true)
    (h4 : rotSuccess dir (playerRotate dir (playerRotate dir (playerRotate dir s))) = true) :
    (playerRotate dir (playerRotate dir (playerRotate dir (playerRotate dir s)))).player.matrix
      = s.player.matrix ∧
    (playerRotate dir (playerRotate dir (playerRotate dir
      (playerRotate dir s)))).player.rotationIndex = s.player.rotationIndex ∧
    (collide s.grid (rotate s.player.matrix dir) s.player.pos = false →
      collide (playerRotate dir s).grid
        (rotate (playerRotate dir s).player.matrix dir)
        (playerRotate dir s).player.pos = false →
      collide (playerRotate dir (playerRotate dir s)).grid
        (rotate (playerRotate dir (playerRotate dir s)).player.matrix dir)
        (playerRotate dir (playerRotate dir s)).player.pos = false →
      collide (playerRotate dir (playerRotate dir (playerRotate dir s))).grid
        (rotate (playerRotate dir (playerRotate dir (playerRotate dir s))).player.matrix dir)
        (playerRotate dir (playerRotate dir (playerRotate dir s))).player.pos = false →
      (playerRotate dir (playerRotate dir (playerRotate dir
        (playerRotate dir s)))).player.pos = s.player.pos) := by
  unfold rotSuccess at h1 h2 h3 h4
  obtain ⟨o1, hf1⟩ := Option.isSome_iff_exists.mp h1
  have P1 := playerRotate_success dir s o1 hf1
  obtain ⟨o2, hf2⟩ := Option.isSome_iff_exists.mp h2
  have P2 := playerRotate_success dir (playerRotate dir s) o2 hf2
  obtain ⟨o3, hf3⟩ := Option.isSome_iff_exists.mp h3
  have P3 := playerRotate_success dir (playerRotate dir (playerRotate dir s)) o3 hf3
  obtain ⟨o4, hf4⟩ := Option.isSome_iff_exists.mp h4
  have P4 := playerRotate_success dir
    (playerRotate dir (playerRotate dir (playerRotate dir s))) o4 hf4
  refine ⟨?_, ?_, ?_⟩
  · rw [P4.1, P3.1, P2.1, P1.1]
    exact rotate_four s.player.matrix dir hdir hsq
  · rw [P4.2.2.1, P3.2.2.1, P2.2.2.1, P1.2.2.1]
    exact rotIdx_four s.player.rotationIndex dir hr hdir
  · intro hz1 hz2 hz3 hz4
    have Q1 := playerRotate_noKick dir s hz1
    have Q2 := playerRotate_noKick dir (playerRotate dir s) hz2
    have Q3 := playerRotate_noKick dir (playerRotate dir (playerRotate dir s)) hz3
    have Q4 := playerRotate_noKick dir
      (playerRotate dir (playerRotate dir (playerRotate dir s))) hz4
    rw [Q4.1, Q3.1, Q2.1, Q1.1]

/-- C7 witness: on an open board a T piece spawns free of obstruction and
four clockwise rotations restore matrix, rotation state and position. -/
theorem rotate_four_amended_witness :
    ((playerRotate 1 (playerRotate 1 (playerRotate 1 (playerRotate 1 sC7w)))).player.matrix
        = sC7w.player.matrix ∧
      (playerRotate 1 (playerRotate 1 (playerRotate 1
        (playerRotate 1 sC7w)))).player.rotationIndex = sC7w.player.rotationIndex ∧
      (collide sC7w.grid (rotate sC7w.player.matrix 1) sC7w.player.pos = false →
        collide (playerRotate 1 sC7w).grid
          (rotate (playerRotate 1 sC7w).player.matrix 1)
          (playerRotate 1 sC7w).player.pos = false →
        collide (playerRotate 1 (playerRotate 1 sC7w)).grid
          (rotate (playerRotate 1 (playerRotate 1 sC7w)).player.matrix 1)
          (playerRotate 1 (playerRotate 1 sC7w)).player.pos = false →
        collide (playerRotate 1 (playerRotate 1 (playerRotate 1 sC7w))).grid
          (rotate (playerRotate 1 (playerRotate 1 (playerRotate 1 sC7w))).player.matrix 1)
          (playerRotate 1 (playerRotate 1 (playerRotate 1 sC7w))).player.pos = false →
        (playerRotate 1 (playerRotate 1 (playerRotate 1
          (playerRotate 1 sC7w)))).player.pos = sC7w.player.pos)) :=
  rotate_four_amended sC7w 1 (Or.inl rfl) (by unfold isSquare; decide) (by decide)
    (by decide) (by decide) (by decide) (by decide)

/-! ### C1: the deferred line clear -/

/-- C1 (code bug, evaluated at the failing input): with rows 18 and 19 full
the sweep records `[19, 18]`, yet the deferred clear produces a grid whose
bottom row is still the full row 18 (token `2`) — the non-full row 17
(marker `[1,0,...,0]`) was deleted instead, because the `unshift` performed
between the two `splice` calls shifts every remaining index down by one.
The claim's expected result (top two rows empty, bottom 18 rows = original
rows 0–17 in order) differs. -/
theorem completeClear_removes_wrong_rows :
    (arenaSweep { initialState rng0 with grid := gC1, state := .PLAYING }).clearingLines
        = [19, 18] ∧
    (completeClear sC1).grid
        = List.replicate 19 (List.replicate 10 0) ++ [List.replicate 10 2] ∧
    (completeClear sC1).grid
        ≠ List.replicate 19 (List.replicate 10 0) ++ [[1,0,0,0,0,0,0,0,0,0]] :=
  ⟨by decide, by decide, by decide⟩

/-! ### C2: the collision predicate -/

/-- C2 counterexample: a J piece whose top-left occupied cell maps to row
−1 (above the visible top, inside the hidden buffer) on an empty board.
The claim's predicate says this placement does not collide (above-top rows
are permitted); the code returns a collision, because `arena[-1]` is
`undefined`. -/
theorem collide_above_top_counterexample :
    collide createGrid (TETROMINOS .J).shape ⟨4, -1⟩ = true ∧
    ¬ collideSpec createGrid (TETROMINOS .J).shape ⟨4, -1⟩ :=
  ⟨by decide, by decide⟩

theorem cellAt_ne_zero_iff (arena : List (List Nat)) (hdim : gridDims arena)
    (r c : Int) :
    (cellAt arena r c ≠ some 0) ↔
      (c < 0 ∨ c ≥ (COLS : Int) ∨ r < 0 ∨ r ≥ (ROWS : Int) ∨ occupiedAt arena r c) := by
  obtain ⟨hlen, hrow⟩ := hdim
  unfold ROWS at hlen
  unfold occupiedAt
  by_cases hr0 : 0 ≤ r
  · by_cases hrR : r.toNat < arena.length
    · have hsome : arena[r.toNat]? = some arena[r.toNat] := List.getElem?_eq_getElem hrR
      have hrowlen : arena[r.toNat].length = COLS := hrow _ (List.getElem_mem hrR)
      unfold COLS at hrowlen
      have hrI : r < (ROWS : Int) := by
        unfold ROWS
        omega
      have hcell1 : cellAt arena r c = zget arena[r.toNat] c := by
        unfold cellAt zget
        rw [if_pos hr0, hsome]
        rfl
      by_cases hc0 : 0 ≤ c
      · by_cases hcC : c.toNat < arena[r.toNat].length
        · have hcell : cellAt arena r c = some (arena[r.toNat][c.toNat]) := by
            rw [hcell1]
            unfold zget
            rw [if_pos hc0, List.getElem?_eq_getElem hcC]
          have hcI : c < (COLS : Int) := by
            unfold COLS
            omega
          rw [hcell]
          simp only [ne_eq, Option.some.injEq, Option.getD_some]
          constructor
          · intro h
            exact Or.inr (Or.inr (Or.inr (Or.inr h)))
          · intro h
            rcases h with h | h | h | h | h
            · omega
            · omega
            · omega
            · omega
            · exact h
        · have hcell : cellAt arena r c = none := by
            rw [hcell1]
            unfold zget
            rw [if_pos hc0, List.getElem?_eq_none (by omega)]
          rw [hcell]
          simp only [ne_eq, Option.getD_none]
          constructor
          · intro _
            refine Or.inr (Or.inl ?_)
            unfold COLS
            omega
          · intro _
            simp
      · have hcell : cellAt arena r c = none := by
          rw [hcell1]
          unfold zget
          rw [if_neg hc0]
        rw [hcell]
        simp only [ne_eq, Option.getD_none]
        constructor
        · intro _
          exact Or.inl (by omega)
        · intro _
          simp
    · have hcell : cellAt arena r c = none := by
        unfold cellAt zget
        rw [if_pos hr0, List.getElem?_eq_none (by omega)]
        rfl
      rw [hcell]
      simp only [ne_eq, Option.getD_none]
      constructor
      · intro _
        refine Or.inr (Or.inr (Or.inr (Or.inl ?_)))
        unfold ROWS
        omega
      · intro _
        simp
  · have hcell : cellAt arena r c = none := by
      unfold cellAt zget
      rw [if_neg hr0]
      rfl
    rw [hcell]
    simp only [ne_eq, Option.getD_none]
    constructor
    · intro _
      exact Or.inr (Or.inr (Or.inl (by omega)))
    · intro _
      simp

theorem mem_occupiedCells (m : List (List Nat)) (c : Nat × Nat) :
    c ∈ occupiedCells m ↔
      c.1 < m.length ∧ c.2 < (m.getD c.1 []).length ∧ (m.getD c.1 []).getD c.2 0 ≠ 0 := by
  unfold occupiedCells
  rcases c with ⟨y, x⟩
  simp only [List.mem_flatMap, List.mem_map, List.mem_filter, List.mem_range]
  constructor
  · rintro ⟨y', hy', x', ⟨⟨hx', hocc⟩, heq⟩⟩
    obtain ⟨h1, h2⟩ := Prod.mk.injEq .. ▸ heq
    subst h1
    subst h2
    exact ⟨hy', hx', by simpa using hocc⟩
  · rintro ⟨hy, hx, hocc⟩
    exact ⟨y, hy, x, ⟨⟨hx, by simpa using hocc⟩, rfl⟩⟩

theorem collide_iff_occupied (arena m : List (List Nat)) (o : Pos) :
    collide arena m o = true ↔
      ∃ c ∈ occupiedCells m,
        cellAt arena ((c.1 : Int) + o.y) ((c.2 : Int) + o.x) ≠ some 0 := by
  unfold collide
  rw [List.any_eq_true]
  constructor
  · rintro ⟨y, hy, hinner⟩
    rw [List.any_eq_true] at hinner
    obtain ⟨x, hx, hb⟩ := hinner
    rw [Bool.and_eq_true] at hb
    refine ⟨(y, x), ?_, ?_⟩
    · rw [mem_occupiedCells]
      exact ⟨List.mem_range.mp hy, List.mem_range.mp hx, by simpa using hb.1⟩
    · simpa using hb.2
  · rintro ⟨⟨y, x⟩, hc, hne⟩
    rw [mem_occupiedCells] at hc
    refine ⟨y, List.mem_range.mpr hc.1, ?_⟩
    rw [List.any_eq_true]
    refine ⟨x, List.mem_range.mpr hc.2.1, ?_⟩
    rw [Bool.and_eq_true]
    exact ⟨by simpa using hc.2.2, by simpa using hne⟩

/-- C2 (amended): on a well-formed ROWS × COLS grid, the code's collision
test is true exactly when some occupied cell of the piece maps outside
`[0, COLS)` horizontally, to a row `≥ ROWS`, **to a negative row**, or onto
an occupied grid cell — unlike the spec's wording, a negative (above-top)
row *does* collide. -/
theorem collide_iff_spec_amended (arena m : List (List Nat)) (o : Pos)
    (hdim : gridDims arena) :
    collide arena m o = true ↔ collideSpecAmended arena m o := by
  rw [collide_iff_occupied]
  unfold collideSpecAmended
  constructor
  · rintro ⟨c, hc, hne⟩
    refine ⟨c, hc, ?_⟩
    have h := (cellAt_ne_zero_iff arena ⟨hdim.1, hdim.2⟩ _ _).mp hne
    tauto
  · rintro ⟨c, hc, hdisj⟩
    refine ⟨c, hc, (cellAt_ne_zero_iff arena ⟨hdim.1, hdim.2⟩ _ _).mpr ?_⟩
    tauto

/-- C2 witness: the amended characterization applied to an O piece resting
on the floor of an empty board. -/
theorem collide_iff_spec_amended_witness :
    collide createGrid (TETROMINOS .O).shape ⟨4, 18⟩ = true ↔
      collideSpecAmended createGrid (TETROMINOS .O).shape ⟨4, 18⟩ :=
  collide_iff_spec_amended createGrid (TETROMINOS .O).shape ⟨4, 18⟩
    (by unfold gridDims; decide)

/-! ### Frame lemmas: which fields an operation leaves untouched -/

theorem getNextFromBag_frame (s : GameState) :
    (getNextFromBag s).2.grid = s.grid ∧
    (getNextFromBag s).2.score = s.score ∧
    (getNextFromBag s).2.canHold = s.canHold ∧
    (getNextFromBag s).2.clearingLines = s.clearingLines ∧
    (getNextFromBag s).2.state = s.state ∧
    (getNextFromBag s).2.player = s.player ∧
    (getNextFromBag s).2.isAnimatingClear = s.isAnimatingClear := by
  unfold getNextFromBag fillBag
  split <;> dsimp only <;> split <;> exact ⟨rfl, rfl, rfl, rfl, rfl, rfl, rfl⟩

theorem playerReset_frame (s : GameState) :
    (playerReset s).grid = s.grid ∧
    (playerReset s).score = s.score ∧
    (playerReset s).canHold = s.canHold ∧
    (playerReset s).clearingLines = s.clearingLines ∧
    (playerReset s).isLocking = false ∧
    (playerReset s).lockTimer = 0 ∧
    (playerReset s).lockMoves = 0 ∧
    (playerReset s).isAnimatingClear = s.isAnimatingClear := by
  have F1 := getNextFromBag_frame s
  have F2 := getNextFromBag_frame (getNextFromBag s).2
  cases hnp : s.nextPiece with
  | some t =>
    simp only [playerReset, gameOver, hnp]
    split <;>
      exact ⟨F1.1, F1.2.1, F1.2.2.1, F1.2.2.2.1, rfl, rfl, rfl, F1.2.2.2.2.2.2⟩
  | none =>
    simp only [playerReset, gameOver, hnp]
    split <;>
      exact ⟨F2.1.trans F1.1, (F2.2.1).trans F1.2.1,
        (F2.2.2.1).trans F1.2.2.1, (F2.2.2.2.1).trans F1.2.2.2.1, rfl, rfl, rfl,
        (F2.2.2.2.2.2.2).trans F1.2.2.2.2.2.2⟩

theorem arenaSweep_frame (s : GameState) :
    (arenaSweep s).grid = s.grid ∧
    (arenaSweep s).score = s.score ∧
    (arenaSweep s).canHold = s.canHold ∧
    (arenaSweep s).player = s.player := by
  unfold arenaSweep
  dsimp only
  split <;> exact ⟨rfl, rfl, rfl, rfl⟩

theorem arenaSweep_clearing (s : GameState) :
    ∀ y ∈ (arenaSweep s).clearingLines, y < s.grid.length := by
  have hsub : ∀ y ∈ ((List.range s.grid.length).reverse).filter
      (fun y => (s.grid.getD y []).all (fun c => c != 0)), y < s.grid.length := by
    intro y hy
    have := (List.mem_filter.mp hy).1
    rw [List.mem_reverse, List.mem_range] at this
    exact this
  unfold arenaSweep
  dsimp only
  split <;> exact hsub

theorem lockPiece_facts (s : GameState) :
    (lockPiece s).grid = merge s.grid s.player ∧
    (lockPiece s).score = s.score ∧
    (lockPiece s).canHold = true := by
  unfold lockPiece
  have A := arenaSweep_frame { s with grid := merge s.grid s.player }
  have F := playerReset_frame
    { arenaSweep { s with grid := merge s.grid s.player } with canHold := true }
  exact ⟨F.1.trans A.1, F.2.1.trans A.2.1, F.2.2.1⟩

/-! ### C3: hard drop -/

theorem dropDist_spec (grid m : List (List Nat)) (x : Int) :
    ∀ (fuel : Nat) (y : Int) (k : Nat), k ≤ fuel →
      collide grid m ⟨x, y + (k : Int)⟩ = true →
      collide grid m ⟨x, y + (dropDist grid m x y fuel : Int)⟩ = true ∧
      (∀ j : Nat, j < dropDist grid m x y fuel →
        collide grid m ⟨x, y + (j : Int)⟩ = false) ∧
      dropDist grid m x y fuel ≤ k := by
  intro fuel
  induction fuel with
  | zero =>
    intro y k hk hc
    have hk0 : k = 0 := by omega
    subst hk0
    have hd0 : dropDist grid m x y 0 = 0 := rfl
    refine ⟨by rw [hd0]; simpa using hc, ?_, Nat.le_refl 0⟩
    intro j hj
    rw [hd0] at hj
    omega
  | succ n ih =>
    intro y k hk hc
    by_cases h0 : collide grid m ⟨x, y⟩ = true
    · have hstep : dropDist grid m x y (n + 1)
          = if collide grid m ⟨x, y⟩ then 0 else dropDist grid m x (y + 1) n + 1 := rfl
      have hd : dropDist grid m x y (n + 1) = 0 := by
        rw [hstep, if_pos h0]
      rw [hd]
      refine ⟨by simpa using h0, ?_, Nat.zero_le k⟩
      intro j hj
      omega
    · have h0' : collide grid m ⟨x, y⟩ = false := by
        cases hb : collide grid m ⟨x, y⟩
        · rfl
        · exact absurd hb h0
      have hstep : dropDist grid m x y (n + 1)
          = if collide grid m ⟨x, y⟩ then 0 else dropDist grid m x (y + 1) n + 1 := rfl
      have hd : dropDist grid m x y (n + 1) = dropDist grid m x (y + 1) n + 1 := by
        rw [hstep, if_neg h0]
      have hk1 : 1 ≤ k := by
        by_contra hcon
        have : k = 0 := by omega
        subst this
        simp only [Nat.cast_zero, add_zero] at hc
        exact h0 hc
      have hc' : collide grid m ⟨x, (y + 1) + ((k - 1 : Nat) : Int)⟩ = true := by
        have heq : (y + 1) + ((k - 1 : Nat) : Int) = y + (k : Int) := by omega
        rw [heq]
        exact hc
      obtain ⟨ih1, ih2, ih3⟩ := ih (y + 1) (k - 1) (by omega) hc'
      rw [hd]
      refine ⟨?_, ?_, by omega⟩
      · have heq : y + ((dropDist grid m x (y + 1) n + 1 : Nat) : Int)
            = (y + 1) + ((dropDist grid m x (y + 1) n : Nat) : Int) := by
          push_cast
          ring
        rw [heq]
        exact ih1
      · intro j hj
        cases j with
        | zero => simpa using h0'
        | succ j' =>
          have heq : y + ((j' + 1 : Nat) : Int) = (y + 1) + ((j' : Nat) : Int) := by
            push_cast
            ring
          rw [heq]
          exact ih2 j' (by omega)

/-- C3 counterexample: an O piece hard-dropped from its spawn position
`(4, 0)` over an empty board descends 18 rows (rests at row 18, collides at
19), and the code adds 36 = 2 × 18 points — not the claim's
`2 × max(0, rows-fallen − 1) = 2 × 17 = 34`. -/
theorem hard_drop_score_counterexample :
    (playerHardDrop sC3).score = 36 ∧
    sC3.score = 0 ∧
    collide sC3.grid sC3.player.matrix ⟨4, 18⟩ = false ∧
    collide sC3.grid sC3.player.matrix ⟨4, 19⟩ = true ∧
    (36 : Nat) ≠ 2 * (18 - 1) :=
  ⟨by decide, rfl, by decide, by decide, by decide⟩

/-- C3 (amended): from any non-colliding position with a floor below
(some row at distance `k` collides), `playerHardDrop` advances the piece to
the lowest non-colliding row directly below its start, locks it immediately
(the resulting grid is the merge at the resting position, and hold is
re-enabled), and adds exactly `2 × max(0, advances − 1)` points where
`advances` counts the loop's `y++` steps — that is, exactly
`2 × rows-fallen`, the piece's actual descent, not `2 × (rows-fallen − 1)`. -/
theorem hard_drop_amended (s : GameState) (k : Nat)
    (hnc : collide s.grid s.player.matrix s.player.pos = false)
    (hk : collide s.grid s.player.matrix
      ⟨s.player.pos.x, s.player.pos.y + (k : Int)⟩ = true)
    (hfuel : k ≤ s.grid.length + s.player.matrix.length + 1 + (-s.player.pos.y).toNat) :
    1 ≤ dropDist s.grid s.player.matrix s.player.pos.x s.player.pos.y
        (s.grid.length + s.player.matrix.length + 1 + (-s.player.pos.y).toNat) ∧
    (playerHardDrop s).score = s.score +
      (dropDist s.grid s.player.matrix s.player.pos.x s.player.pos.y
        (s.grid.length + s.player.matrix.length + 1 + (-s.player.pos.y).toNat) - 1) * 2 ∧
    collide s.grid s.player.matrix
      ⟨s.player.pos.x, s.player.pos.y +
        ((dropDist s.grid s.player.matrix s.player.pos.x s.player.pos.y
          (s.grid.length + s.player.matrix.length + 1 + (-s.player.pos.y).toNat) : Nat) : Int)
        - 1⟩ = false ∧
    collide s.grid s.player.matrix
      ⟨s.player.pos.x, s.player.pos.y +
        ((dropDist s.grid s.player.matrix s.player.pos.x s.player.pos.y
          (s.grid.length + s.player.matrix.length + 1 + (-s.player.pos.y).toNat) : Nat) : Int)⟩
      = true ∧
    (playerHardDrop s).grid = merge s.grid
      { s.player with pos := ⟨s.player.pos.x, s.player.pos.y +
          ((dropDist s.grid s.player.matrix s.player.pos.x s.player.pos.y
            (s.grid.length + s.player.matrix.length + 1 + (-s.player.pos.y).toNat) : Nat) : Int)
          - 1⟩ } ∧
    (playerHardDrop s).canHold = true := by
  obtain ⟨hcolld, hbelow, hdk⟩ := dropDist_spec s.grid s.player.matrix s.player.pos.x
    (s.grid.length + s.player.matrix.length + 1 + (-s.player.pos.y).toNat)
    s.player.pos.y k hfuel hk
  have hd1 : 1 ≤ dropDist s.grid s.player.matrix s.player.pos.x s.player.pos.y
      (s.grid.length + s.player.matrix.length + 1 + (-s.player.pos.y).toNat) := by
    by_contra hcon
    have h0 : dropDist s.grid s.player.matrix s.player.pos.x s.player.pos.y
        (s.grid.length + s.player.matrix.length + 1 + (-s.player.pos.y).toNat) = 0 := by
      omega
    rw [h0] at hcolld
    simp only [Nat.cast_zero, add_zero] at hcolld
    have : s.player.pos = ⟨s.player.pos.x, s.player.pos.y⟩ := rfl
    rw [← this] at hcolld
    rw [hnc] at hcolld
    exact Bool.false_ne_true hcolld
  set d := dropDist s.grid s.player.matrix s.player.pos.x s.player.pos.y
    (s.grid.length + s.player.matrix.length + 1 + (-s.player.pos.y).toNat) with hdDef
  have hrest : collide s.grid s.player.matrix
      ⟨s.player.pos.x, s.player.pos.y + (d : Int) - 1⟩ = false := by
    have heq : s.player.pos.y + (d : Int) - 1 = s.player.pos.y + ((d - 1 : Nat) : Int) := by
      omega
    rw [heq]
    exact hbelow (d - 1) (by omega)
  have L := lockPiece_facts { s with
    player := { s.player with pos := ⟨s.player.pos.x, s.player.pos.y + (d : Int) - 1⟩ },
    score := s.score + (d - 1) * 2 }
  have hHD : playerHardDrop s = lockPiece { s with
      player := { s.player with pos := ⟨s.player.pos.x, s.player.pos.y + (d : Int) - 1⟩ },
      score := s.score + (d - 1) * 2 } := rfl
  refine ⟨hd1, ?_, hrest, hcolld, ?_, ?_⟩
  · rw [hHD]
    exact L.2.1
  · rw [hHD]
    exact L.1
  · rw [hHD]
    exact L.2.2

/-- C3 witness: the amended statement applied to the O piece spawned at
`(4, 0)` over the empty board, with the floor collision at distance 20. -/
theorem hard_drop_amended_witness :
    (1 ≤ dropDist sC3.grid sC3.player.matrix sC3.player.pos.x sC3.player.pos.y
        (sC3.grid.length + sC3.player.matrix.length + 1 + (-sC3.player.pos.y).toNat) ∧
      (playerHardDrop sC3).score = sC3.score +
        (dropDist sC3.grid sC3.player.matrix sC3.player.pos.x sC3.player.pos.y
          (sC3.grid.length + sC3.player.matrix.length + 1 + (-sC3.player.pos.y).toNat) - 1) * 2 ∧
      collide sC3.grid sC3.player.matrix
        ⟨sC3.player.pos.x, sC3.player.pos.y +
          ((dropDist sC3.grid sC3.player.matrix sC3.player.pos.x sC3.player.pos.y
            (sC3.grid.length + sC3.player.matrix.length + 1 + (-sC3.player.pos.y).toNat) : Nat) : Int)
          - 1⟩ = false ∧
      collide sC3.grid sC3.player.matrix
        ⟨sC3.player.pos.x, sC3.player.pos.y +
          ((dropDist sC3.grid sC3.player.matrix sC3.player.pos.x sC3.player.pos.y
            (sC3.grid.length + sC3.player.matrix.length + 1 + (-sC3.player.pos.y).toNat) : Nat) : Int)⟩
        = true ∧
      (playerHardDrop sC3).grid = merge sC3.grid
        { sC3.player with pos := ⟨sC3.player.pos.x, sC3.player.pos.y +
            ((dropDist sC3.grid sC3.player.matrix sC3.player.pos.x sC3.player.pos.y
              (sC3.grid.length + sC3.player.matrix.length + 1 + (-sC3.player.pos.y).toNat) : Nat) : Int)
            - 1⟩ } ∧
      (playerHardDrop sC3).canHold = true) :=
  hard_drop_amended sC3 20 (by decide) (by decide) (by decide)

/-! ### C4 / C5: the lock-delay reset policy -/

theorem playerMove_success_fields (dir : Int) (s : GameState)
    (hmv : collide s.grid s.player.matrix
      ⟨s.player.pos.x + dir, s.player.pos.y⟩ = false) :
    (playerMove dir s).player.pos = ⟨s.player.pos.x + dir, s.player.pos.y⟩ ∧
    ((s.isLocking = true ∧ s.lockMoves < maxLockMoves) →
      (playerMove dir s).lockTimer = 0 ∧
      (playerMove dir s).lockMoves = s.lockMoves + 1 ∧
      (playerMove dir s).isLocking = s.isLocking) ∧
    (¬(s.isLocking = true ∧ s.lockMoves < maxLockMoves) →
      (playerMove dir s).lockTimer = s.lockTimer ∧
      (playerMove dir s).lockMoves = s.lockMoves ∧
      (playerMove dir s).isLocking = s.isLocking) := by
  unfold playerMove
  dsimp only
  rw [hmv]
  rw [if_neg Bool.false_ne_true]
  refine ⟨?_, ?_, ?_⟩
  · split <;> rfl
  · intro h
    rw [if_pos h]
    exact ⟨rfl, rfl, rfl⟩
  · intro h
    rw [if_neg h]
    exact ⟨rfl, rfl, rfl⟩

theorem playerRotate_success_lock (dir : Int) (s : GameState) (off : Int × Int)
    (hfind : (getKickData s.player.tetromino.id s.player.rotationIndex dir).find?
      (fun o => !collide s.grid (rotate s.player.matrix dir)
        ⟨s.player.pos.x + o.1, s.player.pos.y - o.2⟩) = some off) :
    ((s.isLocking = true ∧ s.lockMoves < maxLockMoves) →
      (playerRotate dir s).lockTimer = 0 ∧
      (playerRotate dir s).lockMoves = s.lockMoves + 1 ∧
      (playerRotate dir s).isLocking = s.isLocking) ∧
    (¬(s.isLocking = true ∧ s.lockMoves < maxLockMoves) →
      (playerRotate dir s).lockTimer = s.lockTimer ∧
      (playerRotate dir s).lockMoves = s.lockMoves ∧
      (playerRotate dir s).isLocking = s.isLocking) := by
  simp only [playerRotate]
  rw [hfind]
  constructor
  · intro h
    split
    next off' heq =>
      injection heq with heq'
      subst heq'
      rw [if_pos h]
      exact ⟨rfl, rfl, rfl⟩
    next heq => exact Option.noConfusion heq
  · intro h
    split
    next off' heq =>
      injection heq with heq'
      subst heq'
      rw [if_neg h]
      exact ⟨rfl, rfl, rfl⟩
    next heq => exact Option.noConfusion heq

/-- C4 counterexample: lock delay armed (timer 137, zero move-resets), a
horizontal move succeeds (the piece shifts from x = 4 to x = 5), the timer
is zeroed — but the piece is *still* in the locking state afterwards:
`isLocking` remains `true`, contrary to the claim that the lock state is
cleared and not merely the timer zeroed. -/
theorem lock_state_not_cleared_counterexample :
    sC4.isLocking = true ∧
    sC4.lockMoves = 0 ∧
    sC4.lockTimer = 137 ∧
    (playerMove 1 sC4).player.pos.x = 5 ∧
    sC4.player.pos.x = 4 ∧
    (playerMove 1 sC4).lockTimer = 0 ∧
    (playerMove 1 sC4).isLocking = true :=
  ⟨rfl, rfl, rfl, by decide, rfl, by decide, by decide⟩

/-- C4 (amended): while the lock state is armed and under the move cap, a
successful horizontal move or rotation zeroes the lock timer and counts the
move but leaves `isLocking` armed (the locking state is not cleared — only a
successful downward step clears it); the whole lock state is reset on every
spawn (`playerReset`), and a gravity drop arms `isLocking` exactly when the
piece cannot advance. -/
theorem lock_delay_policy_amended (s : GameState) (dir : Int)
    (hmv : collide s.grid s.player.matrix
      ⟨s.player.pos.x + dir, s.player.pos.y⟩ = false)
    (hlk : s.isLocking = true) (hcap : s.lockMoves < maxLockMoves) :
    ((playerMove dir s).lockTimer = 0 ∧
      (playerMove dir s).lockMoves = s.lockMoves + 1 ∧
      (playerMove dir s).isLocking = true ∧
      (playerMove dir s).player.pos.x = s.player.pos.x + dir) ∧
    (rotSuccess dir s = true →
      (playerRotate dir s).lockTimer = 0 ∧
      (playerRotate dir s).lockMoves = s.lockMoves + 1 ∧
      (playerRotate dir s).isLocking = true) ∧
    (∀ s' : GameState, (playerReset s').isLocking = false ∧
      (playerReset s').lockTimer = 0 ∧ (playerReset s').lockMoves = 0) ∧
    (∀ s' : GameState,
      (collide s'.grid s'.player.matrix
        ⟨s'.player.pos.x, s'.player.pos.y + 1⟩ = true →
        (playerDrop s').isLocking = true) ∧
      (collide s'.grid s'.player.matrix
        ⟨s'.player.pos.x, s'.player.pos.y + 1⟩ = false →
        (playerDrop s').isLocking = false)) := by
  have M := playerMove_success_fields dir s hmv
  refine ⟨?_, ?_, ?_, ?_⟩
  · have h2 := M.2.1 ⟨hlk, hcap⟩
    refine ⟨h2.1, h2.2.1, h2.2.2.trans hlk, ?_⟩
    rw [M.1]
  · intro hrs
    unfold rotSuccess at hrs
    obtain ⟨off, hf⟩ := Option.isSome_iff_exists.mp hrs
    have R := (playerRotate_success_lock dir s off hf).1 ⟨hlk, hcap⟩
    exact ⟨R.1, R.2.1, R.2.2.trans hlk⟩
  · intro s'
    have F := playerReset_frame s'
    exact ⟨F.2.2.2.2.1, F.2.2.2.2.2.1, F.2.2.2.2.2.2.1⟩
  · intro s'
    constructor
    · intro hcol
      unfold playerDrop
      dsimp only
      rw [hcol, if_pos rfl]
      by_cases hl : s'.isLocking
      · rw [if_neg (by simp [hl])]
        exact hl
      · rw [if_pos (by simp [hl])]
    · intro hcol
      unfold playerDrop
      dsimp only
      rw [hcol]
      rw [if_neg Bool.false_ne_true]

/-- C4 witness: the amended policy at the armed state `sC4`. -/
theorem lock_delay_policy_amended_witness :
    (((playerMove 1 sC4).lockTimer = 0 ∧
      (playerMove 1 sC4).lockMoves = sC4.lockMoves + 1 ∧
      (playerMove 1 sC4).isLocking = true ∧
      (playerMove 1 sC4).player.pos.x = sC4.player.pos.x + 1) ∧
    (rotSuccess 1 sC4 = true →
      (playerRotate 1 sC4).lockTimer = 0 ∧
      (playerRotate 1 sC4).lockMoves = sC4.lockMoves + 1 ∧
      (playerRotate 1 sC4).isLocking = true) ∧
    (∀ s' : GameState, (playerReset s').isLocking = false ∧
      (playerReset s').lockTimer = 0 ∧ (playerReset s').lockMoves = 0) ∧
    (∀ s' : GameState,
      (collide s'.grid s'.player.matrix
        ⟨s'.player.pos.x, s'.player.pos.y + 1⟩ = true →
        (playerDrop s').isLocking = true) ∧
      (collide s'.grid s'.player.matrix
        ⟨s'.player.pos.x, s'.player.pos.y + 1⟩ = false →
        (playerDrop s').isLocking = false))) :=
  lock_delay_policy_amended sC4 1 (by decide) rfl (by decide)

/-- C5: a successful move or rotation during lock delay zeroes the timer and
counts the move only while the counter is under the fixed cap 15; at the cap
(the 16th and later move/rotation) the timer and counter are untouched even
though the move itself still happens, and the tick loop locks the piece as
soon as the (unpostponed) lock timer reaches the 500 ms threshold. -/
theorem lock_reset_cap_policy (s : GameState) (dir : Int)
    (hmv : collide s.grid s.player.matrix
      ⟨s.player.pos.x + dir, s.player.pos.y⟩ = false)
    (hlk : s.isLocking = true) :
    maxLockMoves = 15 ∧ lockDelay = 500 ∧
    (s.lockMoves < maxLockMoves →
      (playerMove dir s).lockTimer = 0 ∧
      (playerMove dir s).lockMoves = s.lockMoves + 1) ∧
    (maxLockMoves ≤ s.lockMoves →
      (playerMove dir s).lockTimer = s.lockTimer ∧
      (playerMove dir s).lockMoves = s.lockMoves ∧
      (playerMove dir s).player.pos.x = s.player.pos.x + dir) ∧
    (rotSuccess dir s = true → maxLockMoves ≤ s.lockMoves →
      (playerRotate dir s).lockTimer = s.lockTimer ∧
      (playerRotate dir s).lockMoves = s.lockMoves) ∧
    (∀ (delta : Nat) (s' : GameState),
      s'.state = .PLAYING → s'.isAnimatingClear = false → s'.isLocking = true →
      s'.dropCounter + delta ≤ s'.dropInterval →
      lockDelay ≤ s'.lockTimer + delta →
      updateTick delta s' = lockPiece { s' with
        dropCounter := s'.dropCounter + delta,
        lockTimer := s'.lockTimer + delta }) := by
  have M := playerMove_success_fields dir s hmv
  refine ⟨rfl, rfl, ?_, ?_, ?_, ?_⟩
  · intro hcap
    have h2 := M.2.1 ⟨hlk, hcap⟩
    exact ⟨h2.1, h2.2.1⟩
  · intro hcap
    have h2 := M.2.2 (by intro hcon; omega)
    refine ⟨h2.1, h2.2.1, ?_⟩
    rw [M.1]
  · intro hrs hcap
    unfold rotSuccess at hrs
    obtain ⟨off, hf⟩ := Option.isSome_iff_exists.mp hrs
    have R := (playerRotate_success_lock dir s off hf).2 (by intro hcon; omega)
    exact ⟨R.1, R.2.1⟩
  · intro delta s' hst hanim hl hdc hlt
    unfold updateTick
    dsimp only
    rw [if_neg (by rw [hst]; intro hcon; exact hcon rfl)]
    rw [if_neg (by rw [hanim]; exact Bool.false_ne_true)]
    rw [if_neg (show ¬(s'.dropCounter + delta > s'.dropInterval) by omega)]
    rw [if_pos hl]
    rw [if_pos hlt]

/-- C5 witness: the cap policy at the armed state `sC4`. -/
theorem lock_reset_cap_policy_witness :
    (maxLockMoves = 15 ∧ lockDelay = 500 ∧
    (sC4.lockMoves < maxLockMoves →
      (playerMove 1 sC4).lockTimer = 0 ∧
      (playerMove 1 sC4).lockMoves = sC4.lockMoves + 1) ∧
    (maxLockMoves ≤ sC4.lockMoves →
      (playerMove 1 sC4).lockTimer = sC4.lockTimer ∧
      (playerMove 1 sC4).lockMoves = sC4.lockMoves ∧
      (playerMove 1 sC4).player.pos.x = sC4.player.pos.x + 1) ∧
    (rotSuccess 1 sC4 = true → maxLockMoves ≤ sC4.lockMoves →
      (playerRotate 1 sC4).lockTimer = sC4.lockTimer ∧
      (playerRotate 1 sC4).lockMoves = sC4.lockMoves) ∧
    (∀ (delta : Nat) (s' : GameState),
      s'.state = .PLAYING → s'.isAnimatingClear = false → s'.isLocking = true →
      s'.dropCounter + delta ≤ s'.dropInterval →
      lockDelay ≤ s'.lockTimer + delta →
      updateTick delta s' = lockPiece { s' with
        dropCounter := s'.dropCounter + delta,
        lockTimer := s'.lockTimer + delta })) :=
  lock_reset_cap_policy sC4 1 (by decide) rfl

/-! ### C9: invalid operation calls -/

/-- C9 counterexample: in a reachable GAMEOVER state (spawn blocked by a
single cell at `(0, 5)`), `playerMove (-1)` still moves the piece — its x
coordinate changes from 4 to 3 — because `playerMove` performs no session
state check.  A call during GAMEOVER is *not* a no-op. -/
theorem move_during_gameover_counterexample :
    sC9.state = GState.GAMEOVER ∧
    collide sC9.grid sC9.player.matrix sC9.player.pos = true ∧
    (playerMove (-1) sC9).player.pos.x = 3 ∧
    sC9.player.pos.x = 4 :=
  ⟨rfl, by decide, by decide, rfl⟩

/-- C9 (amended): `holdTetromino` really is guarded — it is a silent no-op
whenever hold was already used for the current piece or the session is not
PLAYING (in particular during GAMEOVER).  `playerMove`, by contrast, has no
such guard; callers (as the repository's input layer does) must gate
movement on the PLAYING state themselves. -/
theorem hold_guard_amended (s : GameState)
    (h : s.canHold = false ∨ s.state ≠ .PLAYING) :
    holdTetromino s = s := by
  unfold holdTetromino
  rw [if_pos h]

/-- C9 witness: holding during GAMEOVER leaves the state untouched. -/
theorem hold_guard_amended_witness : holdTetromino sC9 = sC9 :=
  hold_guard_amended sC9 (Or.inr (by decide))

/-! ### C10: the grid-dimension invariant -/

theorem foldl_preserve {α β : Type} (P : β → Prop) (f : β → α → β) :
    ∀ (l : List α) (b : β), P b → (∀ b' a, a ∈ l → P b' → P (f b' a)) →
      P (l.foldl f b) := by
  intro l
  induction l with
  | nil => intro b hb _; exact hb
  | cons a t ih =>
    intro b hb hf
    exact ih (f b a) (hf b a (List.mem_cons_self a t) hb)
      (fun b' a' ha' hb' => hf b' a' (List.mem_cons_of_mem a ha') hb')

theorem zsetCell_dims (a : List (List Nat)) (r c : Int) (v : Nat)
    (hd : gridDims a) : gridDims (zsetCell a r c v) := by
  unfold zsetCell
  split
  · split
    next row hrow =>
      constructor
      · rw [List.length_set]
        exact hd.1
      · intro row' hmem
        rcases List.mem_or_eq_of_mem_set hmem with h | h
        · exact hd.2 _ h
        · subst h
          rw [List.length_set]
          exact hd.2 row (List.getElem?_mem hrow)
    next => exact hd
  · exact hd

theorem merge_dims (a : List (List Nat)) (p : Player) (hd : gridDims a) :
    gridDims (merge a p) := by
  unfold merge
  refine foldl_preserve gridDims _ _ a hd ?_
  intro b y _ hb
  refine foldl_preserve gridDims _ _ b hb ?_
  intro b' x _ hb'
  split
  · exact zsetCell_dims _ _ _ _ hb'
  · exact hb'

theorem mem_insertDesc (x b : Nat) (l : List Nat) (h : b ∈ insertDesc x l) :
    b = x ∨ b ∈ l := by
  induction l with
  | nil =>
    simp only [insertDesc, List.mem_singleton] at h
    exact Or.inl h
  | cons y ys ih =>
    simp only [insertDesc] at h
    split at h
    · rcases List.mem_cons.mp h with h1 | h1
      · exact Or.inl h1
      · exact Or.inr h1
    · rcases List.mem_cons.mp h with h1 | h1
      · exact Or.inr (by rw [h1]; exact List.mem_cons_self y ys)
      · rcases ih h1 with h2 | h2
        · exact Or.inl h2
        · exact Or.inr (List.mem_cons_of_mem y h2)

theorem mem_sortDesc (b : Nat) (l : List Nat) (h : b ∈ sortDesc l) : b ∈ l := by
  induction l with
  | nil =>
    simp only [sortDesc] at h
    exact absurd h (List.not_mem_nil b)
  | cons y ys ih =>
    simp only [sortDesc] at h
    rcases mem_insertDesc y b (sortDesc ys) h with h1 | h1
    · rw [h1]
      exact List.mem_cons_self y ys
    · exact List.mem_cons_of_mem y (ih h1)

theorem clearStep_dims (g : List (List Nat)) (y : Nat) (hd : gridDims g)
    (hy : y < ROWS) : gridDims (List.replicate COLS 0 :: g.eraseIdx y) := by
  constructor
  · have hlt : y < g.length := by rw [hd.1]; exact hy
    simp only [List.length_cons, List.length_eraseIdx, if_pos hlt]
    rw [hd.1]
    unfold ROWS
    omega
  · intro row hrow
    rcases List.mem_cons.mp hrow with h | h
    · rw [h]
      exact List.length_replicate COLS 0
    · exact hd.2 _ (List.mem_of_mem_eraseIdx h)

theorem completeClear_dims (s : GameState) (hd : gridDims s.grid)
    (hcl : ∀ y ∈ s.clearingLines, y < ROWS) :
    gridDims (completeClear s).grid ∧ (completeClear s).clearingLines = [] := by
  have hgrid : gridDims ((sortDesc s.clearingLines).foldl
      (fun g y => List.replicate COLS 0 :: g.eraseIdx y) s.grid) := by
    refine foldl_preserve gridDims _ _ _ hd ?_
    intro g y hy hg
    exact clearStep_dims g y hg (hcl y (mem_sortDesc y s.clearingLines hy))
  unfold completeClear
  dsimp only
  split <;> exact ⟨hgrid, rfl⟩

theorem arenaSweep_inv (s : GameState) (hd : gridDims s.grid) :
    InvDims (arenaSweep s) := by
  have hg := (arenaSweep_frame s).1
  have hc := arenaSweep_clearing s
  refine ⟨by rw [hg]; exact hd, ?_⟩
  intro y hy
  have := hc y hy
  rw [hd.1] at this
  exact this

theorem playerReset_inv (s : GameState) (hinv : InvDims s) : InvDims (playerReset s) := by
  have F := playerReset_frame s
  exact ⟨by rw [F.1]; exact hinv.1, by rw [F.2.2.2.1]; exact hinv.2⟩

theorem lockPiece_inv (s : GameState) (hd : gridDims s.grid) :
    InvDims (lockPiece s) := by
  unfold lockPiece
  have hm : gridDims (merge s.grid s.player) := merge_dims s.grid s.player hd
  have A := arenaSweep_inv { s with grid := merge s.grid s.player } hm
  refine playerReset_inv _ ?_
  exact ⟨A.1, A.2⟩

theorem playerMove_inv (dir : Int) (s : GameState) (hinv : InvDims s) :
    InvDims (playerMove dir s) := by
  unfold playerMove
  dsimp only
  split
  · exact hinv
  · split <;> exact hinv

theorem playerRotate_inv (dir : Int) (s : GameState) (hinv : InvDims s) :
    InvDims (playerRotate dir s) := by
  unfold playerRotate
  dsimp only
  split
  · split <;> exact hinv
  · exact hinv

theorem playerDrop_inv (s : GameState) (hinv : InvDims s) :
    InvDims (playerDrop s) := by
  unfold playerDrop
  dsimp only
  split
  · split <;> exact hinv
  · exact hinv

theorem manualDrop_inv (s : GameState) (hinv : InvDims s) :
    InvDims (manualDrop s) := by
  unfold manualDrop
  dsimp only
  split
  · split <;> exact hinv
  · exact hinv

theorem playerHardDrop_inv (s : GameState) (hinv : InvDims s) :
    InvDims (playerHardDrop s) := by
  unfold playerHardDrop
  dsimp only
  exact lockPiece_inv _ hinv.1

theorem holdTetromino_inv (s : GameState) (hinv : InvDims s) :
    InvDims (holdTetromino s) := by
  unfold holdTetromino
  split
  · exact hinv
  · split
    · exact playerReset_inv _ hinv
    · exact hinv

theorem togglePause_inv (s : GameState) (hinv : InvDims s) :
    InvDims (togglePause s) := by
  unfold togglePause
  split
  · exact hinv
  · split <;> exact hinv

theorem createGrid_dims : gridDims createGrid := by
  unfold gridDims createGrid
  refine ⟨List.length_replicate ROWS (List.replicate COLS 0), ?_⟩
  intro row hrow
  rw [List.eq_of_mem_replicate hrow]
  exact List.length_replicate COLS 0

theorem resetGame_inv (s : GameState) : InvDims (resetGame s) := by
  refine ⟨createGrid_dims, ?_⟩
  intro y hy
  simp only [resetGame] at hy
  simp at hy

theorem updateTick_inv (delta : Nat) (s : GameState) (hinv : InvDims s) :
    InvDims (updateTick delta s) := by
  unfold updateTick
  dsimp only
  by_cases h1 : s.state ≠ .PLAYING
  · rw [if_pos h1]
    exact hinv
  rw [if_neg h1]
  by_cases h2 : s.isAnimatingClear = true
  · rw [if_pos h2]
    by_cases h3 : s.clearAnimationFrame + 1 ≥ 18
    · rw [if_pos h3]
      have hcc := completeClear_dims
        { s with clearAnimationFrame := s.clearAnimationFrame + 1 } hinv.1 hinv.2
      refine ⟨hcc.1, ?_⟩
      rw [hcc.2]
      intro y hy
      exact absurd hy (List.not_mem_nil y)
    · rw [if_neg h3]
      exact hinv
  rw [if_neg h2]
  by_cases h4 : s.dropCounter + delta > s.dropInterval
  · rw [if_pos h4]
    have hinv₁ : InvDims (playerDrop { s with dropCounter := s.dropCounter + delta }) :=
      playerDrop_inv _ hinv
    by_cases h5 : (playerDrop { s with dropCounter := s.dropCounter + delta }).isLocking
        = true
    · rw [if_pos h5]
      by_cases h6 : lockDelay ≤
          (playerDrop { s with dropCounter := s.dropCounter + delta }).lockTimer + delta
      · rw [if_pos h6]
        exact lockPiece_inv _ hinv₁.1
      · rw [if_neg h6]
        exact hinv₁
    · rw [if_neg h5]
      exact hinv₁
  · rw [if_neg h4]
    by_cases h5 : s.isLocking = true
    · rw [if_pos h5]
      by_cases h6 : lockDelay ≤ s.lockTimer + delta
      · rw [if_pos h6]
        exact lockPiece_inv _ hinv.1
      · rw [if_neg h6]
        exact hinv
    · rw [if_neg h5]
      exact hinv

theorem step_inv (s s' : GameState) (h : Step s s') (hinv : InvDims s) :
    InvDims s' := by
  cases h with
  | move dir s => exact playerMove_inv dir s hinv
  | rot dir s => exact playerRotate_inv dir s hinv
  | gravity s => exact playerDrop_inv s hinv
  | soft s => exact manualDrop_inv s hinv
  | hard s => exact playerHardDrop_inv s hinv
  | holdStep s => exact holdTetromino_inv s hinv
  | tick delta s => exact updateTick_inv delta s hinv
  | pauseStep s => exact togglePause_inv s hinv
  | resetStep s => exact resetGame_inv s

theorem getNextFromBag_inv (s : GameState) (h : InvDims s) :
    InvDims (getNextFromBag s).2 :=
  ⟨by rw [(getNextFromBag_frame s).1]; exact h.1,
   by rw [(getNextFromBag_frame s).2.2.2.1]; exact h.2⟩

theorem startGame_grid (lvl : Nat) (s : GameState) :
    (startGame lvl s).grid = createGrid := by
  unfold startGame
  dsimp only
  rw [(playerReset_frame _).1]
  dsimp only
  rw [(getNextFromBag_frame _).1]
  rfl

theorem startGame_clearing (lvl : Nat) (s : GameState) :
    (startGame lvl s).clearingLines = [] := by
  unfold startGame
  dsimp only
  rw [(playerReset_frame _).2.2.2.1]
  dsimp only
  rw [(getNextFromBag_frame _).2.2.2.1]
  rfl

theorem startGame_inv (lvl : Nat) (s : GameState) : InvDims (startGame lvl s) := by
  refine ⟨?_, ?_⟩
  · rw [startGame_grid]
    exact createGrid_dims
  · rw [startGame_clearing]
    intro y hy
    exact absurd hy (List.not_mem_nil y)

/-- C10: in every state reachable from `start` through core operations, the
grid is exactly ROWS = 20 rows of exactly COLS = 10 cells each; every core
operation (move, rotate, gravity/soft/hard drop, hold, the merge-on-lock
inside the tick and hard drop, and the deferred line clear) preserves these
dimensions. -/
theorem grid_dims_reachable (r : Nat → Nat) (lvl : Nat) (s' : GameState)
    (h : Reachable (startGame lvl (initialState r)) s') :
    gridDims s'.grid ∧ ROWS = 20 ∧ COLS = 10 := by
  have hinv : InvDims s' := by
    unfold Reachable at h
    induction h with
    | refl => exact startGame_inv lvl (initialState r)
    | tail hsteps hstep ih => exact step_inv _ _ hstep ih
  exact ⟨hinv.1, rfl, rfl⟩

/-- C10 witness: the freshly started session itself. -/
theorem grid_dims_reachable_witness :
    gridDims (startGame 1 (initialState rng0)).grid ∧ ROWS = 20 ∧ COLS = 10 :=
  grid_dims_reachable rng0 1 (startGame 1 (initialState rng0))
    Relation.ReflTransGen.refl

end Tetris
